import Mathlib

/-!
# NeuralNetwork.cpp: asynchronous inference session

A shallow embedding of `ANeuralNetwork` (src/NeuralNetwork.cpp, src/NeuralNetwork.h).

* `TArray<T>` is a `List T`; `Num()` and every index are `int32` values, kept as `Int`
  with an explicit two's-complement wrap (`toInt32`) where the source converts or multiplies.
* Where the source computes with `float` (`NormalizeImage`), a value is an IEEE 754 binary32
  value (`Float32`) and every operation rounds to nearest, ties to even. The `float`
  elements of the helper's buffers are only stored, copied and zero-filled; they are kept as
  rationals (`ℚ`).
* `TSharedPtr<FModelHelper>` is an index into `heap`, the list of all helper records that
  `MakeShared` has created; a record stays in `heap` as long as the model runs, which is what
  shared ownership guarantees to every holder of the pointer.
* `AsyncTask` pushes a unit of work on `tasks`; `runTask` executes one of them atomically.
* `m_mutex` only serialises the steps; every operation below is one atomic step.
* A failed `checkf`, a failed range check of `operator[]` and a null dereference abort the
  call: the operation returns `none`.
-/

namespace NeuralNetwork

/-! ## Machine integers and `TArray` -/

/-- Largest `int32`. -/
def INT32_MAX : Int := 2147483647

/-- Conversion of an integer value to `int32` (two's-complement wrap-around). -/
def toInt32 (z : Int) : Int := (z + 2147483648) % 4294967296 - 2147483648

/-- Conversion of an integer value to `uint32`. -/
def toUInt32 (z : Int) : Nat := (z % 4294967296).toNat

/-- `TArray::Num()`. -/
def Num {α : Type} (xs : List α) : Int := (xs.length : Int)

/-- `TArray::SetNumZeroed(NewNum)`: grows with zeroed elements or shrinks; the elements that
stay keep their value. A negative `NewNum` is outside the contract of `TArray`. -/
def SetNumZeroed {α : Type} [Zero α] (xs : List α) (NewNum : Int) : Option (List α) :=
  if NewNum < 0 then none
  else if NewNum > Num xs then some (xs ++ List.replicate (NewNum.toNat - xs.length) 0)
  else if NewNum < Num xs then some (xs.take NewNum.toNat)
  else some xs

/-- `TArray::Reset()`. -/
def Reset {α : Type} (_xs : List α) : List α := []

/-- Read through `operator[]` with its range check. -/
def readAt {α : Type} (xs : List α) (Idx : Int) : Option α :=
  if 0 ≤ Idx then xs[Idx.toNat]? else none

/-- Write through `operator[]` with its range check. -/
def writeAt {α : Type} (xs : List α) (Idx : Int) (v : α) : Option (List α) :=
  if 0 ≤ Idx ∧ Idx < Num xs then some (xs.set Idx.toNat v) else none

/-- `ParallelFor(Count, Body)`: the body runs once for every index below `Count`. The bodies
in this file touch disjoint elements, so the order does not matter; the loop is run in
increasing order and stops at the first body that aborts. -/
def ParallelFor {σ : Type} (Count : Int) (Body : Int → σ → Option σ) (init : σ) : Option σ :=
  (List.range Count.toNat).foldlM (fun st (Idx : Nat) => Body (Idx : Int) st) init

/-! ## Tensor shapes (engine interface) -/

/-- Modelled from the spec: `UE::NNE::FSymbolicTensorShape`, declared in the engine headers.
A dimension is an `int32`; a negative one is variable. -/
structure FSymbolicTensorShape where
  Data : List Int
deriving DecidableEq, Repr

/-- Modelled from the spec: `UE::NNE::FTensorShape`, declared in the engine headers: an
ordered sequence of `uint32` dimensions. -/
structure FTensorShape where
  Data : List Nat
deriving DecidableEq, Repr

/-- Modelled from the spec: `FSymbolicTensorShape::IsConcrete`, no variable dimension. -/
def FSymbolicTensorShape.IsConcrete (S : FSymbolicTensorShape) : Bool :=
  S.Data.all (fun d => decide (0 ≤ d))

/-- Modelled from the spec: `FTensorShape::MakeFromSymbolic`; a variable dimension becomes 1. -/
def FTensorShape.MakeFromSymbolic (S : FSymbolicTensorShape) : FTensorShape :=
  ⟨S.Data.map (fun d => if d < 0 then 1 else d.toNat)⟩

/-- Modelled from the spec: `FTensorShape::Make` from a `TArray<uint32>`. -/
def FTensorShape.Make (Data : List Nat) : FTensorShape := ⟨Data⟩

/-- Modelled from the spec: `FTensorShape::Rank`. -/
def FTensorShape.Rank (S : FTensorShape) : Int := Num S.Data

/-- Modelled from the spec: `FTensorShape::Volume`, the product of the dimensions. -/
def FTensorShape.Volume (S : FTensorShape) : Nat := S.Data.prod

/-- Modelled from the spec: `FTensorShape::GetData()[k]`, range checked. -/
def FTensorShape.GetData (S : FTensorShape) (k : Int) : Option Nat := readAt S.Data k

/-- Modelled from the spec: `UE::NNE::FTensorDesc`; only the shape is used. -/
structure FTensorDesc where
  Shape : FSymbolicTensorShape
deriving DecidableEq, Repr

/-- Modelled from the spec: the state of an `IModelInstanceCPU` that the session can observe:
the descriptors it reports and the shape list last handed to `SetInputTensorShapes`. -/
structure IModelInstanceCPU where
  InputTensorDescs : List FTensorDesc
  OutputTensorDescs : List FTensorDesc
  InputTensorShapes : List FTensorShape
deriving DecidableEq, Repr

/-- Modelled from the spec: `IModelInstanceCPU::SetInputTensorShapes`. -/
def IModelInstanceCPU.SetInputTensorShapes (I : IModelInstanceCPU)
    (Shapes : List FTensorShape) : IModelInstanceCPU :=
  { I with InputTensorShapes := Shapes }

/-! ## Helper record, tasks and the actor -/

/-- The array whose `GetData()` pointer a binding stores: a buffer of the helper at a heap
index. -/
inductive BufferRef where
  | InputData (helper : Nat)
  | OutputData (helper : Nat)
deriving DecidableEq, Repr

/-- Modelled from the spec: `UE::NNE::FTensorBindingCPU`, a data pointer and a byte size. -/
structure FTensorBindingCPU where
  Data : Option BufferRef
  SizeInBytes : Nat
deriving DecidableEq, Repr

instance : Zero FTensorBindingCPU := ⟨⟨none, 0⟩⟩

/-- `class FModelHelper` (NeuralNetwork.h). `ModelInstance = none` is the null `TUniquePtr`. -/
structure FModelHelper where
  ModelInstance : Option IModelInstanceCPU
  InputData : List ℚ
  OutputData : List ℚ
  InputBindings : List FTensorBindingCPU
  OutputBindings : List FTensorBindingCPU
  bIsRunning : Bool
deriving DecidableEq, Repr

/-- `FNNEAsyncInferenceDelegate`: unbound, or bound to the callback with the given name. -/
abbrev FNNEAsyncInferenceDelegate := Option Nat

/-- A unit of work queued by `AsyncTask`, with the values its lambda captured. -/
inductive FAsyncTask where
  | AnyNormalThreadNormalTask (ModelHelperPtr : Nat) (Result : FNNEAsyncInferenceDelegate)
  | GameThread (ModelHelperPtr : Nat) (Result : FNNEAsyncInferenceDelegate)
      (CapturedOutputData : List ℚ)
deriving DecidableEq, Repr

/-- The helper a queued unit of work captured. -/
def FAsyncTask.ModelHelperPtr : FAsyncTask → Nat
  | .AnyNormalThreadNormalTask p _ => p
  | .GameThread p _ _ => p

/-- What the outside world observes of an inference. -/
inductive Event where
  | RunSyncReturned (helper : Nat) (status : Int)
  | ExecuteIfBound (callback : Nat) (OutData : List ℚ)
deriving DecidableEq, Repr

/-- `class ANeuralNetwork` (NeuralNetwork.h) together with the helper heap, the queue of
dispatched units of work and the observed events. -/
structure ANeuralNetwork where
  heap : List FModelHelper
  tasks : List FAsyncTask
  trace : List Event
  IsModelRunning : Bool
  m_ModelHelper : Option Nat
  InputTensorDescs : List FTensorDesc
  SymbolicInputTensorShape : FSymbolicTensorShape
  InputTensorShapes : List FTensorShape
  OutputTensorDescs : List FTensorDesc
  SymbolicOutputTensorShape : FSymbolicTensorShape
  OutputTensorShapes : List FTensorShape
deriving DecidableEq, Repr

/-- The actor right after its constructor ran. -/
def ANeuralNetwork.ctor : ANeuralNetwork :=
  { heap := [], tasks := [], trace := [], IsModelRunning := false, m_ModelHelper := none,
    InputTensorDescs := [], SymbolicInputTensorShape := ⟨[]⟩, InputTensorShapes := [],
    OutputTensorDescs := [], SymbolicOutputTensorShape := ⟨[]⟩, OutputTensorShapes := [] }

/-- Dereference of a helper pointer. -/
def ANeuralNetwork.deref (s : ANeuralNetwork) (p : Nat) : Option FModelHelper := s.heap[p]?

/-- The record `m_ModelHelper` points to, with its heap index; `none` for the null pointer. -/
def ANeuralNetwork.current (s : ANeuralNetwork) : Option (Nat × FModelHelper) :=
  match s.m_ModelHelper with
  | none => none
  | some p => (s.deref p).map (fun H => (p, H))

/-- `m_ModelHelper.IsValid()`. -/
def ANeuralNetwork.IsValid (s : ANeuralNetwork) : Bool := s.current.isSome

/-- Update of the record behind a helper pointer. -/
def ANeuralNetwork.modify (s : ANeuralNetwork) (p : Nat) (f : FModelHelper → FModelHelper) :
    ANeuralNetwork :=
  match s.heap[p]? with
  | none => s
  | some H => { s with heap := s.heap.set p (f H) }

/-- The block every operation opens with:
`if (isModelRunning) { m_ModelHelper->bIsRunning = false; IsModelRunning = false; }`. -/
def ANeuralNetwork.stopIfRunning (s : ANeuralNetwork) (p : Nat) (isModelRunning : Bool) :
    ANeuralNetwork :=
  if isModelRunning then
    { s.modify p (fun H => { H with bIsRunning := false }) with IsModelRunning := false }
  else s

/-! ## Model creation -/

/-- `MakeShared<FModelHelper>()`: a value-initialised record. -/
def FModelHelper.MakeShared : FModelHelper :=
  { ModelInstance := none, InputData := [], OutputData := [], InputBindings := [],
    OutputBindings := [], bIsRunning := false }

/-- What the asset loader and the engine answer during one model creation:
`LazyLoadedModelData.IsValid()`, `Runtime.IsValid()` and the result of
`Runtime->CreateModel`: `none` for an invalid model, otherwise what
`Model->CreateModelInstance()` returns (`none` for a null instance). -/
structure FModelCreation where
  LazyLoadedModelDataIsValid : Bool
  RuntimeIsValid : Bool
  Model : Option (Option IModelInstanceCPU)
deriving DecidableEq, Repr

/-- `ANeuralNetwork::CreateCPUModel`. -/
def CreateCPUModel (s : ANeuralNetwork) (L : FModelCreation) : ANeuralNetwork × Bool :=
  if L.LazyLoadedModelDataIsValid then
    if L.RuntimeIsValid then
      let p := s.heap.length
      let s1 := { s with heap := s.heap ++ [FModelHelper.MakeShared], m_ModelHelper := some p }
      match L.Model with
      | some Instance =>
        let s2 := s1.modify p (fun H => { H with ModelInstance := Instance })
        if Instance.isSome then
          ({ s2.modify p (fun H => { H with bIsRunning := false }) with
              IsModelRunning := false }, true)
        else (s2, false)
      | none => (s1, false)
    else (s, false)
  else (s, false)

/-- `ANeuralNetwork::OnModelDataLoaded`: the same creation path, without a return value. -/
def OnModelDataLoaded (s : ANeuralNetwork) (L : FModelCreation) : ANeuralNetwork :=
  if L.LazyLoadedModelDataIsValid then
    if L.RuntimeIsValid then
      let p := s.heap.length
      let s1 := { s with heap := s.heap ++ [FModelHelper.MakeShared], m_ModelHelper := some p }
      match L.Model with
      | some Instance =>
        let s2 := s1.modify p (fun H => { H with ModelInstance := Instance })
        if Instance.isSome then
          { s2.modify p (fun H => { H with bIsRunning := false }) with IsModelRunning := false }
        else s2
      | none => s1
    else s
  else s

/-! ## Descriptor and shape accessors -/

/-- `ANeuralNetwork::GetInputTensorDescs`; the result is the state with `numInputs` and
`idxInputs`. `Inputs0` is the indeterminate value of the uninitialised local `Inputs`. -/
def GetInputTensorDescs (s : ANeuralNetwork) (isModelRunning : Bool) (Inputs0 : Int) :
    Option (ANeuralNetwork × Int × Int) :=
  match s.current with
  | none => none
  | some (p, H) =>
    match H.ModelInstance with
    | some Instance =>
      let s1 := s.stopIfRunning p isModelRunning
      let s2 := { s1 with InputTensorDescs := Instance.InputTensorDescs }
      if Num s2.InputTensorDescs = 1 then
        let Inputs := Num s2.InputTensorDescs
        some (s2, Inputs, toInt32 (Inputs - 1))
      else none
    | none => some (s, Inputs0, toInt32 (Inputs0 - 1))

/-- The `int32&` parameters of `GetInputTensorShape`. -/
structure FInputShapeInfo where
  Rank : Int
  Volume : Int
  Dimension : Int
  Frame : Int
  ColorChannels : Int
  Height : Int
  Width : Int
deriving DecidableEq, Repr

/-- The tail of `GetInputTensorShape`: the assignments to the reference parameters, read from
`InputTensorShapes[InputIdx]`. `out` holds the values the caller's variables had. -/
def readInputShape (Shape : FTensorShape) (out : FInputShapeInfo) : Option FInputShapeInfo :=
  let Rank := Shape.Rank
  let Volume := toInt32 Shape.Volume
  match Shape.GetData 0 with
  | none => none
  | some d0 =>
    let out1 := { out with Rank := Rank, Volume := Volume, Dimension := toInt32 d0 }
    let out2 : Option FInputShapeInfo :=
      if Rank = 4 then
        match Shape.GetData 1, Shape.GetData 2, Shape.GetData 3 with
        | some d1, some d2, some d3 =>
          some { out1 with Frame := 0, ColorChannels := toInt32 d1, Height := toInt32 d2,
                           Width := toInt32 d3 }
        | _, _, _ => none
      else some out1
    match out2 with
    | none => none
    | some out2 =>
      if Rank = 5 then
        match Shape.GetData 1, Shape.GetData 2, Shape.GetData 3, Shape.GetData 4 with
        | some d1, some d2, some d3, some d4 =>
          some { out2 with Frame := toInt32 d1, ColorChannels := toInt32 d2,
                           Height := toInt32 d3, Width := toInt32 d4 }
        | _, _, _, _ => none
      else some out2

/-- The guarded block of `GetInputTensorShape`: with a valid model instance the shape of
`InputTensorDescs[InputIdx]` is checked to be concrete and stored as the only element of
`InputTensorShapes`; without one the state is left as it is. -/
def resolveInputShape (s : ANeuralNetwork) (p : Nat) (H : FModelHelper) (InputIdx : Int)
    (isModelRunning : Bool) : Option ANeuralNetwork :=
  if H.ModelInstance.isSome then
    let s1 := s.stopIfRunning p isModelRunning
    match readAt s1.InputTensorDescs InputIdx with
    | none => none
    | some Desc =>
      let s2 := { s1 with SymbolicInputTensorShape := Desc.Shape }
      if s2.SymbolicInputTensorShape.IsConcrete then
        some { s2 with InputTensorShapes :=
                 [FTensorShape.MakeFromSymbolic s2.SymbolicInputTensorShape] }
      else none
  else some s

/-- `ANeuralNetwork::GetInputTensorShape`. -/
def GetInputTensorShape (s : ANeuralNetwork) (InputIdx : Int) (isModelRunning : Bool)
    (out : FInputShapeInfo) : Option (ANeuralNetwork × FInputShapeInfo) :=
  match s.current with
  | none => none
  | some (p, H) =>
    match resolveInputShape s p H InputIdx isModelRunning with
    | none => none
    | some s3 =>
      match readAt s3.InputTensorShapes InputIdx with
      | none => none
      | some Shape => (readInputShape Shape out).map (fun o => (s3, o))

/-- `ANeuralNetwork::GetOutputTensorDescs`; `Outputs0` is the indeterminate value of the
uninitialised local `Outputs`. -/
def GetOutputTensorDescs (s : ANeuralNetwork) (isModelRunning : Bool) (Outputs0 : Int) :
    Option (ANeuralNetwork × Int) :=
  match s.current with
  | none => none
  | some (p, H) =>
    match H.ModelInstance with
    | some Instance =>
      let s1 := s.stopIfRunning p isModelRunning
      let s2 := { s1 with OutputTensorDescs := Instance.OutputTensorDescs }
      if Num s2.OutputTensorDescs = 1 then some (s2, Num s2.OutputTensorDescs) else none
    | none => some (s, Outputs0)

/-- The `int32&` parameters of `GetOutputTensorShape`. -/
structure FOutputShapeInfo where
  Rank : Int
  Volume : Int
  Dimension : Int
  PredOpts : Int
deriving DecidableEq, Repr

/-- The guarded block of `GetOutputTensorShape`, as `resolveInputShape`. -/
def resolveOutputShape (s : ANeuralNetwork) (p : Nat) (H : FModelHelper) (OutputIdx : Int)
    (isModelRunning : Bool) : Option ANeuralNetwork :=
  if H.ModelInstance.isSome then
    let s1 := s.stopIfRunning p isModelRunning
    match readAt s1.OutputTensorDescs OutputIdx with
    | none => none
    | some Desc =>
      let s2 := { s1 with SymbolicOutputTensorShape := Desc.Shape }
      if s2.SymbolicOutputTensorShape.IsConcrete then
        some { s2 with OutputTensorShapes :=
                 [FTensorShape.MakeFromSymbolic s2.SymbolicOutputTensorShape] }
      else none
  else some s

/-- `ANeuralNetwork::GetOutputTensorShape`. -/
def GetOutputTensorShape (s : ANeuralNetwork) (OutputIdx : Int) (isModelRunning : Bool) :
    Option (ANeuralNetwork × FOutputShapeInfo) :=
  match s.current with
  | none => none
  | some (p, H) =>
    match resolveOutputShape s p H OutputIdx isModelRunning with
    | none => none
    | some s3 =>
      match readAt s3.OutputTensorShapes OutputIdx with
      | none => none
      | some Shape =>
        match Shape.GetData 0, Shape.GetData 1 with
        | some d0, some d1 =>
          some (s3, { Rank := Shape.Rank, Volume := toInt32 Shape.Volume,
                      Dimension := toInt32 d0, PredOpts := toInt32 d1 })
        | _, _ => none

/-! ## Shape reconfiguration and bindings -/

/-- The `TArray<uint32> InputShapeData` that `SetInputTensorShapes` assembles. -/
def InputShapeData (Rank Dimension Frame ColorChannels Height Width : Int) : List Nat :=
  let d0 : List Nat := []
  let d4 :=
    if Rank = 4 then
      d0 ++ [toUInt32 Dimension, toUInt32 ColorChannels, toUInt32 Height, toUInt32 Width]
    else d0
  if Rank = 5 then
    d4 ++ [toUInt32 Dimension, toUInt32 Frame, toUInt32 ColorChannels, toUInt32 Height,
           toUInt32 Width]
  else d4

/-- The shape list `SetInputTensorShapes` hands to the model instance. -/
def appliedShapes (Stored : List FTensorShape)
    (Rank Dimension Frame ColorChannels Height Width : Int) : List FTensorShape :=
  let Data := InputShapeData Rank Dimension Frame ColorChannels Height Width
  if Num Data = Rank then [FTensorShape.Make Data] else Stored

/-- `ANeuralNetwork::SetInputTensorShapes`. -/
def SetInputTensorShapes (s : ANeuralNetwork) (isModelRunning : Bool)
    (Rank Dimension Frame ColorChannels Height Width : Int) : Option ANeuralNetwork :=
  match s.current with
  | none => none
  | some (p, H) =>
    let s1 := s.stopIfRunning p isModelRunning
    match H.ModelInstance with
    | none => none
    | some _ =>
      let Shapes :=
        appliedShapes s1.InputTensorShapes Rank Dimension Frame ColorChannels Height Width
      some (s1.modify p (fun H1 =>
        { H1 with ModelInstance := H1.ModelInstance.map (fun I => I.SetInputTensorShapes Shapes) }))

/-- `ANeuralNetwork::CreateInputTensorBinding`; the result is the state with `InBSuccess`. -/
def CreateInputTensorBinding (s : ANeuralNetwork) (isModelRunning : Bool) :
    Option (ANeuralNetwork × Bool) := do
  let c ← s.current
  let s1 := s.stopIfRunning c.1 isModelRunning
  let H ← s1.deref c.1
  let Shape ← readAt s1.InputTensorShapes 0
  let InputData ← SetNumZeroed H.InputData (toInt32 Shape.Volume)
  let Bindings ← SetNumZeroed H.InputBindings 1
  let InputBindings ← writeAt Bindings 0
    { Data := some (BufferRef.InputData c.1), SizeInBytes := (Num InputData).toNat * 4 }
  pure (s1.modify c.1 (fun H1 =>
    { H1 with InputData := InputData, InputBindings := InputBindings }), true)

/-- `ANeuralNetwork::CreateOutputTensorBinding`; the result is the state with `OutBSuccess`. -/
def CreateOutputTensorBinding (s : ANeuralNetwork) (isModelRunning : Bool) :
    Option (ANeuralNetwork × Bool) := do
  let c ← s.current
  let s1 := s.stopIfRunning c.1 isModelRunning
  let H ← s1.deref c.1
  let Shape ← readAt s1.OutputTensorShapes 0
  let OutputData ← SetNumZeroed H.OutputData (toInt32 Shape.Volume)
  let Bindings ← SetNumZeroed H.OutputBindings 1
  let OutputBindings ← writeAt Bindings 0
    { Data := some (BufferRef.OutputData c.1), SizeInBytes := (Num OutputData).toNat * 4 }
  pure (s1.modify c.1 (fun H1 =>
    { H1 with OutputData := OutputData, OutputBindings := OutputBindings }), true)

/-! ## `float` arithmetic -/

/-- A `float`: an IEEE 754 binary32 value. `finite s m e` is `(-1)^s * m * 2^e`; the values
of the format are the ones with `m < 2^24` and `-149 ≤ e ≤ 104`, written with `2^23 ≤ m`
(normal) or `e = -149` (subnormal and zero). The two zeros differ in `s`. All NaNs are one
value. -/
inductive Float32 where
  | finite (sign : Bool) (m : Nat) (e : Int)
  | inf (sign : Bool)
  | nan
deriving DecidableEq, Repr

/-- Halving `n` until it is below 2, at most `fuel` times, counting the steps. -/
def Float32.log2Aux : Nat → Nat → Nat
  | 0, _ => 0
  | fuel + 1, n => if n < 2 then 0 else Float32.log2Aux fuel (n / 2) + 1

/-- The position of the leading bit of `n` (0 for `n < 2`). -/
def Float32.log2 (n : Nat) : Nat := Float32.log2Aux n n

/-- The binary32 value nearest to the exact result `(-1)^sign * M * 2^E`, ties to the even
significand: the result is a multiple of `2^q`, where `q` leaves 24 significant bits and is
at least `-149`; a rounded magnitude of `2^128` or more is an infinity. -/
def Float32.round (sign : Bool) (M : Nat) (E : Int) : Float32 :=
  if M = 0 then Float32.finite sign 0 (-149)
  else
    let q : Int := max ((Float32.log2 M : Int) + E - 23) (-149)
    if q ≤ E then
      if q > 104 then Float32.inf sign else Float32.finite sign (M * 2 ^ (E - q).toNat) q
    else
      let shift := (q - E).toNat
      let n0 := M / 2 ^ shift
      let rem := M % 2 ^ shift
      let half := 2 ^ (shift - 1)
      let n := if rem > half ∨ (rem = half ∧ n0 % 2 = 1) then n0 + 1 else n0
      let r : Nat × Int := if n = 16777216 then (8388608, q + 1) else (n, q)
      if r.2 > 104 then Float32.inf sign else Float32.finite sign r.1 r.2

/-- Unary minus: the sign bit is flipped. -/
def Float32.neg : Float32 → Float32
  | Float32.finite s m e => Float32.finite (!s) m e
  | Float32.inf s => Float32.inf (!s)
  | Float32.nan => Float32.nan

/-- The `float` sum: the exact sum, rounded. An exact zero from operands of opposite sign is
`+0`; infinities of opposite sign give NaN. -/
def Float32.add : Float32 → Float32 → Float32
  | Float32.finite sa ma ea, Float32.finite sb mb eb =>
    let E := min ea eb
    let Ma := ma * 2 ^ (ea - E).toNat
    let Mb := mb * 2 ^ (eb - E).toNat
    if sa = sb then Float32.round sa (Ma + Mb) E
    else if Ma = Mb then Float32.finite false 0 (-149)
    else if Mb < Ma then Float32.round sa (Ma - Mb) E
    else Float32.round sb (Mb - Ma) E
  | Float32.inf s, Float32.finite _ _ _ => Float32.inf s
  | Float32.finite _ _ _, Float32.inf s => Float32.inf s
  | Float32.inf s, Float32.inf s' => if s = s' then Float32.inf s else Float32.nan
  | Float32.nan, _ => Float32.nan
  | _, Float32.nan => Float32.nan

/-- The `float` difference `a - b`, which is `a + (-b)`. -/
def Float32.sub (a b : Float32) : Float32 := Float32.add a (Float32.neg b)

/-- The `float` product: the exact product, rounded; zero times infinity is NaN. -/
def Float32.mul : Float32 → Float32 → Float32
  | Float32.finite sa ma ea, Float32.finite sb mb eb =>
    Float32.round (xor sa sb) (ma * mb) (ea + eb)
  | Float32.inf s, Float32.finite s' m _ =>
    if m = 0 then Float32.nan else Float32.inf (xor s s')
  | Float32.finite s m _, Float32.inf s' =>
    if m = 0 then Float32.nan else Float32.inf (xor s s')
  | Float32.inf s, Float32.inf s' => Float32.inf (xor s s')
  | Float32.nan, _ => Float32.nan
  | _, Float32.nan => Float32.nan

instance : Add Float32 := ⟨Float32.add⟩

instance : Sub Float32 := ⟨Float32.sub⟩

instance : Mul Float32 := ⟨Float32.mul⟩

/-- The value `+0.0f`, which is also what zero-filled storage holds. -/
instance : Zero Float32 := ⟨Float32.finite false 0 (-149)⟩

/-- The value `1.0f`. -/
instance : One Float32 := ⟨Float32.finite false 8388608 (-23)⟩

/-- The rational a finite `float` denotes; `none` for the infinities and NaN. -/
def Float32.toRat : Float32 → Option ℚ
  | Float32.finite s m e => some ((if s then -1 else 1) * (m : ℚ) * (2 : ℚ) ^ e)
  | Float32.inf _ => none
  | Float32.nan => none

/-! ## Image normalisation -/

/-- `FLinearColor`: four `float` channels. -/
structure FLinearColor where
  R : Float32
  G : Float32
  B : Float32
  A : Float32
deriving DecidableEq, Repr

/-- The literal `0.33f`: `11072963 * 2^-25`, the `float` nearest to 0.33. -/
def Alpha033 : Float32 := Float32.finite false 11072963 (-25)

/-- `FMath::Lerp` on `float`: `A + Alpha * (B - A)`, the subtraction, the product and the sum
each rounded on its own. -/
def Lerp (A B Alpha : Float32) : Float32 := A + Alpha * (B - A)

/-- The body of the `ParallelFor` in `NormalizeImage`. -/
def NormalizeBody (ImageBuffer : List FLinearColor) (Idx : Int) (temp : List Float32) :
    Option (List Float32) :=
  match readAt ImageBuffer Idx with
  | none => none
  | some Px =>
    let GrayValue := Lerp Px.R (Lerp Px.G Px.B Alpha033) Alpha033
    writeAt temp Idx GrayValue

/-- `ANeuralNetwork::NormalizeImage`; the argument `FlatImg` is the prior content of the
output array and the result is its content on return. -/
def NormalizeImage (ImageBuffer : List FLinearColor) (ColorChannels : Int)
    (FlatImg : List Float32) : Option (List Float32) :=
  let FlatImg1 := if !FlatImg.isEmpty then Reset FlatImg else FlatImg
  match SetNumZeroed FlatImg1 (toInt32 (Num ImageBuffer * ColorChannels)) with
  | none => none
  | some _ =>
    let temp : List Float32 := []
    let temp1 := if !temp.isEmpty then Reset temp else temp
    match SetNumZeroed temp1 (toInt32 (Num ImageBuffer * ColorChannels)) with
    | none => none
    | some temp2 => ParallelFor (Num ImageBuffer) (NormalizeBody ImageBuffer) temp2

/-! ## Asynchronous inference -/

/-- `ANeuralNetwork::RunAsyncInference`, up to its return: the background unit of work is
queued, not run. -/
def RunAsyncInference (s : ANeuralNetwork) (_InBSuccess _OutBSuccess : Bool)
    (InputData : List ℚ) (Result : FNNEAsyncInferenceDelegate) : ANeuralNetwork :=
  match s.current with
  | some (p, H) =>
    if !H.bIsRunning then
      let s1 := s.modify p (fun H1 => { H1 with InputData := InputData })
      let s2 := { s1.modify p (fun H1 => { H1 with bIsRunning := true }) with
                  IsModelRunning := true }
      let ModelHelperPtr := p
      let s3 := { s2 with
                  tasks := s2.tasks ++ [FAsyncTask.AnyNormalThreadNormalTask ModelHelperPtr Result] }
      { s3 with IsModelRunning := false }
    else s
  | none => s

/-- The execution engine behind `IModelInstanceCPU::RunSync`: for the helper whose bindings
are passed, the status code and the content of the helper's output buffer after the call. -/
abbrev FRunSync := FModelHelper → Int × List ℚ

/-- `Result.ExecuteIfBound(CapturedOutputData)`. -/
def ExecuteIfBound (Result : FNNEAsyncInferenceDelegate) (CapturedOutputData : List ℚ) :
    List Event :=
  match Result with
  | some callback => [Event.ExecuteIfBound callback CapturedOutputData]
  | none => []

/-- One queued unit of work runs: the background lambda calls `RunSync`, copies the output
buffer and queues the delivery lambda in its place; the delivery lambda executes the delegate,
clears the running flag of the captured helper and leaves the queue. -/
def runTask (RunSync : FRunSync) (s : ANeuralNetwork) (i : Nat) : Option ANeuralNetwork :=
  match s.tasks[i]? with
  | none => none
  | some (FAsyncTask.AnyNormalThreadNormalTask ModelHelperPtr Result) =>
    match s.deref ModelHelperPtr with
    | none => none
    | some H =>
      match H.ModelInstance with
      | none => none
      | some _ =>
        let r := RunSync H
        let s1 := s.modify ModelHelperPtr (fun H1 => { H1 with OutputData := r.2 })
        let CapturedOutputData := r.2
        some { s1 with
               trace := s1.trace ++ [Event.RunSyncReturned ModelHelperPtr r.1],
               tasks := s1.tasks.set i
                 (FAsyncTask.GameThread ModelHelperPtr Result CapturedOutputData) }
  | some (FAsyncTask.GameThread ModelHelperPtr Result CapturedOutputData) =>
    let s1 := { s with trace := s.trace ++ ExecuteIfBound Result CapturedOutputData }
    let s2 := s1.modify ModelHelperPtr (fun H1 => { H1 with bIsRunning := false })
    some { s2 with tasks := s2.tasks.eraseIdx i }

/-! ## Sequences of operations -/

/-- One step of the system: a caller-facing operation with its arguments, or the scheduler
running the queued unit of work at position `i` (its compute step if it is the background
lambda, its delivery step if it is the game-thread lambda). -/
inductive FStep where
  | CreateCPUModel (L : FModelCreation)
  | OnModelDataLoaded (L : FModelCreation)
  | GetInputTensorDescs (isModelRunning : Bool) (Inputs0 : Int)
  | GetInputTensorShape (InputIdx : Int) (isModelRunning : Bool) (out : FInputShapeInfo)
  | GetOutputTensorDescs (isModelRunning : Bool) (Outputs0 : Int)
  | GetOutputTensorShape (OutputIdx : Int) (isModelRunning : Bool)
  | SetInputTensorShapes (isModelRunning : Bool)
      (Rank Dimension Frame ColorChannels Height Width : Int)
  | CreateInputTensorBinding (isModelRunning : Bool)
  | CreateOutputTensorBinding (isModelRunning : Bool)
  | RunAsyncInference (InBSuccess OutBSuccess : Bool) (InputData : List ℚ)
      (Result : FNNEAsyncInferenceDelegate)
  | runTask (i : Nat)
deriving DecidableEq, Repr

/-- The state after a step; `none` when the step aborts. -/
def FStep.apply (RunSync : FRunSync) (s : ANeuralNetwork) : FStep → Option ANeuralNetwork
  | .CreateCPUModel L => some (NeuralNetwork.CreateCPUModel s L).1
  | .OnModelDataLoaded L => some (NeuralNetwork.OnModelDataLoaded s L)
  | .GetInputTensorDescs b Inputs0 => (NeuralNetwork.GetInputTensorDescs s b Inputs0).map (·.1)
  | .GetInputTensorShape Idx b out => (NeuralNetwork.GetInputTensorShape s Idx b out).map (·.1)
  | .GetOutputTensorDescs b Outputs0 =>
    (NeuralNetwork.GetOutputTensorDescs s b Outputs0).map (·.1)
  | .GetOutputTensorShape Idx b => (NeuralNetwork.GetOutputTensorShape s Idx b).map (·.1)
  | .SetInputTensorShapes b Rank Dimension Frame ColorChannels Height Width =>
    NeuralNetwork.SetInputTensorShapes s b Rank Dimension Frame ColorChannels Height Width
  | .CreateInputTensorBinding b => (NeuralNetwork.CreateInputTensorBinding s b).map (·.1)
  | .CreateOutputTensorBinding b => (NeuralNetwork.CreateOutputTensorBinding s b).map (·.1)
  | .RunAsyncInference InB OutB InputData Result =>
    some (NeuralNetwork.RunAsyncInference s InB OutB InputData Result)
  | .runTask i => NeuralNetwork.runTask RunSync s i

/-- The state after a sequence of steps, each running to its end before the next starts. -/
def run (RunSync : FRunSync) : ANeuralNetwork → List FStep → Option ANeuralNetwork
  | s, [] => some s
  | s, st :: rest =>
    match st.apply RunSync s with
    | none => none
    | some s1 => run RunSync s1 rest

/-- The number of inferences in flight: units of work dispatched whose result has not been
delivered yet. -/
def inFlight (s : ANeuralNetwork) : Nat := s.tasks.length

/-- Steps that reset the running flag of the current helper without a delivery: a call made
with `isModelRunning = true`, and a model creation, which installs a fresh helper. -/
def FStep.resetsRunning : FStep → Bool
  | .CreateCPUModel _ => true
  | .OnModelDataLoaded _ => true
  | .GetInputTensorDescs b _ => b
  | .GetInputTensorShape _ b _ => b
  | .GetOutputTensorDescs b _ => b
  | .GetOutputTensorShape _ b => b
  | .SetInputTensorShapes b _ _ _ _ _ _ => b
  | .CreateInputTensorBinding b => b
  | .CreateOutputTensorBinding b => b
  | .RunAsyncInference _ _ _ _ => false
  | .runTask _ => false

/-- A sequence of steps in which the running flag is reset (see `FStep.resetsRunning`) only
while no inference is in flight. -/
def resetsOnlyWhenIdle (RunSync : FRunSync) : ANeuralNetwork → List FStep → Bool
  | _, [] => true
  | s, st :: rest =>
    (!st.resetsRunning || s.tasks.isEmpty) &&
      match st.apply RunSync s with
      | none => true
      | some s1 => resetsOnlyWhenIdle RunSync s1 rest

/-- The running flags of all helper records, in heap order. -/
def runningFlags (s : ANeuralNetwork) : List Bool := s.heap.map (fun H => H.bIsRunning)

/-- The invariant behind the single-flight policy: the queue is empty, or it holds one unit
of work, which captured the current helper, and that helper's running flag is set. -/
def SingleFlight (s : ANeuralNetwork) : Prop :=
  s.tasks = [] ∨
    ∃ t, s.tasks = [t] ∧ s.m_ModelHelper = some t.ModelHelperPtr ∧
      (runningFlags s)[t.ModelHelperPtr]? = some true

/-- A sequence that dispatches, is refused a second dispatch, and completes the inference
before dispatching again. -/
def sampleSteps : List FStep :=
  [FStep.RunAsyncInference true true [1, 2, 3, 4] (some 7),
   FStep.GetInputTensorDescs false 0,
   FStep.RunAsyncInference true true [4, 3, 2, 1] (some 7),
   FStep.runTask 0,
   FStep.runTask 0,
   FStep.RunAsyncInference true true [4, 3, 2, 1] (some 8)]

/-- An engine that fails with status 1 and leaves three values in the output buffer. -/
def sampleRunSync : FRunSync := fun _ => (1, [5, 6, 7])

/-- The four descriptor and shape accessors, with their arguments other than
`isModelRunning`. -/
inductive FAccessor where
  | GetInputTensorDescs (Inputs0 : Int)
  | GetInputTensorShape (InputIdx : Int) (out : FInputShapeInfo)
  | GetOutputTensorDescs (Outputs0 : Int)
  | GetOutputTensorShape (OutputIdx : Int)
deriving DecidableEq, Repr

/-- The state an accessor leaves when it returns normally; `none` when it aborts. -/
def FAccessor.call (s : ANeuralNetwork) (isModelRunning : Bool) :
    FAccessor → Option ANeuralNetwork
  | .GetInputTensorDescs Inputs0 =>
    (NeuralNetwork.GetInputTensorDescs s isModelRunning Inputs0).map (·.1)
  | .GetInputTensorShape InputIdx out =>
    (NeuralNetwork.GetInputTensorShape s InputIdx isModelRunning out).map (·.1)
  | .GetOutputTensorDescs Outputs0 =>
    (NeuralNetwork.GetOutputTensorDescs s isModelRunning Outputs0).map (·.1)
  | .GetOutputTensorShape OutputIdx =>
    (NeuralNetwork.GetOutputTensorShape s OutputIdx isModelRunning).map (·.1)

/-! ## Sample values -/

/-- A model instance with one rank-4 input `[1,1,2,2]` and one output `[1,3]`. -/
def sampleInstance : IModelInstanceCPU :=
  { InputTensorDescs := [⟨⟨[1, 1, 2, 2]⟩⟩], OutputTensorDescs := [⟨⟨[1, 3]⟩⟩],
    InputTensorShapes := [] }

/-- A model creation in which every step succeeds. -/
def sampleCreation : FModelCreation :=
  { LazyLoadedModelDataIsValid := true, RuntimeIsValid := true,
    Model := some (some sampleInstance) }

/-- The session right after a successful `CreateCPUModel`. -/
def sampleLoaded : ANeuralNetwork := (CreateCPUModel ANeuralNetwork.ctor sampleCreation).1

/-- The loaded session after one accepted `RunAsyncInference`. -/
def sampleDispatched : ANeuralNetwork :=
  RunAsyncInference sampleLoaded true true [1, 2, 3, 4] (some 7)

/-- The loaded session after its descriptors and shapes have been read. -/
def sampleResolved : ANeuralNetwork :=
  (run sampleRunSync sampleLoaded
    [FStep.GetInputTensorDescs false 0,
     FStep.GetInputTensorShape 0 false ⟨0, 0, 0, 0, 0, 0, 0⟩,
     FStep.GetOutputTensorDescs false 0,
     FStep.GetOutputTensorShape 0 false]).getD sampleLoaded

/-- A model instance whose input `[65536, 65536, 1, 1]` has 4294967296 elements. -/
def hugeInstance : IModelInstanceCPU :=
  { InputTensorDescs := [⟨⟨[65536, 65536, 1, 1]⟩⟩], OutputTensorDescs := [⟨⟨[1, 3]⟩⟩],
    InputTensorShapes := [] }

/-- The session loaded with `hugeInstance`, after `GetInputTensorDescs`. -/
def hugeLoaded : ANeuralNetwork :=
  (run sampleRunSync ANeuralNetwork.ctor
    [FStep.CreateCPUModel
       { LazyLoadedModelDataIsValid := true, RuntimeIsValid := true,
         Model := some (some hugeInstance) },
     FStep.GetInputTensorDescs false 0]).getD ANeuralNetwork.ctor

/-- The session `hugeLoaded` after `GetInputTensorShape` has resolved the input shape. -/
def hugeResolved : ANeuralNetwork :=
  (run sampleRunSync hugeLoaded
    [FStep.GetInputTensorShape 0 false ⟨0, 0, 0, 0, 0, 0, 0⟩]).getD hugeLoaded

/-- The loaded session after `GetInputTensorDescs`. -/
def sampleDescribed : ANeuralNetwork :=
  (run sampleRunSync sampleLoaded [FStep.GetInputTensorDescs false 0]).getD sampleLoaded

/-- A session loaded with a model whose only input has the rank-5 shape `[1,2,1,2,2]`, after
`GetInputTensorDescs`. -/
def sampleDescribed5 : ANeuralNetwork :=
  (run sampleRunSync ANeuralNetwork.ctor
    [FStep.CreateCPUModel
       { LazyLoadedModelDataIsValid := true, RuntimeIsValid := true,
         Model := some (some { InputTensorDescs := [⟨⟨[1, 2, 1, 2, 2]⟩⟩],
                               OutputTensorDescs := [⟨⟨[1, 3]⟩⟩],
                               InputTensorShapes := [] }) },
     FStep.GetInputTensorDescs false 0]).getD ANeuralNetwork.ctor

/-- The session `sampleResolved` after one accepted `RunAsyncInference`. -/
def sampleBusy : ANeuralNetwork :=
  RunAsyncInference sampleResolved true true [1, 2, 3, 4] (some 7)

/-- The queued unit of work at position `i` runs until its result is delivered: the compute
step followed by the delivery step if it is still the background lambda, the delivery step
alone if the compute step has already run. -/
def runToDelivery (RunSync : FRunSync) (s : ANeuralNetwork) (i : Nat) : Option ANeuralNetwork :=
  match s.tasks[i]? with
  | none => none
  | some (FAsyncTask.AnyNormalThreadNormalTask _ _) =>
    match runTask RunSync s i with
    | none => none
    | some s2 => runTask RunSync s2 i
  | some (FAsyncTask.GameThread _ _ _) => runTask RunSync s i

/-- The content of the captured helper's output buffer once the unit of work `t` has been
delivered: what `RunSync` leaves there if the compute step is still to run. -/
def outputAfter (RunSync : FRunSync) (H : FModelHelper) : FAsyncTask → List ℚ
  | FAsyncTask.AnyNormalThreadNormalTask _ _ => (RunSync H).2
  | FAsyncTask.GameThread _ _ _ => H.OutputData

/-! ## Basic facts about the heap -/

theorem current_eq_some_iff (s : ANeuralNetwork) (p : Nat) (H : FModelHelper) :
    s.current = some (p, H) ↔ s.m_ModelHelper = some p ∧ s.heap[p]? = some H := by
  unfold ANeuralNetwork.current ANeuralNetwork.deref
  cases hm : s.m_ModelHelper with
  | none => simp
  | some q =>
    simp only [Option.some.injEq, Option.map_eq_some', Prod.mk.injEq]
    constructor
    · rintro ⟨K, hK, rfl, rfl⟩
      exact ⟨rfl, hK⟩
    · rintro ⟨rfl, h⟩
      exact ⟨H, h, rfl, rfl⟩

theorem getElem?_set_of_deref {α : Type} (l : List α) (p : Nat) (a b : α)
    (h : l[p]? = some a) : (l.set p b)[p]? = some b := by
  have hp : p < l.length := by
    by_contra hc
    rw [List.getElem?_eq_none (by omega)] at h
    cases h
  simp [List.getElem?_set, hp]

theorem modify_heap_same (s : ANeuralNetwork) (p : Nat) (f : FModelHelper → FModelHelper) :
    (s.modify p f).heap[p]? = (s.heap[p]?).map f := by
  unfold ANeuralNetwork.modify
  cases h : s.heap[p]? with
  | none => simp [h]
  | some H => simpa using getElem?_set_of_deref s.heap p H (f H) h

theorem modify_heap_other (s : ANeuralNetwork) (p q : Nat) (f : FModelHelper → FModelHelper)
    (hne : p ≠ q) : (s.modify p f).heap[q]? = s.heap[q]? := by
  unfold ANeuralNetwork.modify
  cases h : s.heap[p]? with
  | none => simp
  | some H => simp [List.getElem?_set, hne]

theorem modify_heap_length (s : ANeuralNetwork) (p : Nat) (f : FModelHelper → FModelHelper) :
    (s.modify p f).heap.length = s.heap.length := by
  unfold ANeuralNetwork.modify
  cases h : s.heap[p]? <;> simp

theorem modify_frame (s : ANeuralNetwork) (p : Nat) (f : FModelHelper → FModelHelper) :
    (s.modify p f).tasks = s.tasks ∧ (s.modify p f).trace = s.trace ∧
    (s.modify p f).IsModelRunning = s.IsModelRunning ∧
    (s.modify p f).m_ModelHelper = s.m_ModelHelper ∧
    (s.modify p f).InputTensorDescs = s.InputTensorDescs ∧
    (s.modify p f).InputTensorShapes = s.InputTensorShapes ∧
    (s.modify p f).OutputTensorDescs = s.OutputTensorDescs ∧
    (s.modify p f).OutputTensorShapes = s.OutputTensorShapes := by
  unfold ANeuralNetwork.modify
  cases h : s.heap[p]? <;> simp

@[simp] theorem modify_tasks (s : ANeuralNetwork) (p : Nat) (f : FModelHelper → FModelHelper) :
    (s.modify p f).tasks = s.tasks := (modify_frame s p f).1

@[simp] theorem modify_trace (s : ANeuralNetwork) (p : Nat) (f : FModelHelper → FModelHelper) :
    (s.modify p f).trace = s.trace := (modify_frame s p f).2.1

@[simp] theorem modify_IsModelRunning (s : ANeuralNetwork) (p : Nat)
    (f : FModelHelper → FModelHelper) :
    (s.modify p f).IsModelRunning = s.IsModelRunning := (modify_frame s p f).2.2.1

@[simp] theorem modify_m_ModelHelper (s : ANeuralNetwork) (p : Nat)
    (f : FModelHelper → FModelHelper) :
    (s.modify p f).m_ModelHelper = s.m_ModelHelper := (modify_frame s p f).2.2.2.1

@[simp] theorem modify_InputTensorShapes (s : ANeuralNetwork) (p : Nat)
    (f : FModelHelper → FModelHelper) :
    (s.modify p f).InputTensorShapes = s.InputTensorShapes := (modify_frame s p f).2.2.2.2.2.1

@[simp] theorem modify_OutputTensorShapes (s : ANeuralNetwork) (p : Nat)
    (f : FModelHelper → FModelHelper) :
    (s.modify p f).OutputTensorShapes = s.OutputTensorShapes :=
  (modify_frame s p f).2.2.2.2.2.2.2

/-! ## Claims on `RunAsyncInference` -/

theorem RunAsyncInference_of_running (s : ANeuralNetwork) (p : Nat) (H : FModelHelper)
    (InBSuccess OutBSuccess : Bool) (InputData : List ℚ) (Result : FNNEAsyncInferenceDelegate)
    (hcur : s.current = some (p, H)) (hrun : H.bIsRunning = true) :
    RunAsyncInference s InBSuccess OutBSuccess InputData Result = s := by
  simp [RunAsyncInference, hcur, hrun]

theorem RunAsyncInference_of_idle (s : ANeuralNetwork) (p : Nat) (H : FModelHelper)
    (InBSuccess OutBSuccess : Bool) (InputData : List ℚ) (Result : FNNEAsyncInferenceDelegate)
    (hcur : s.current = some (p, H)) (hidle : H.bIsRunning = false) :
    (RunAsyncInference s InBSuccess OutBSuccess InputData Result).current
        = some (p, { H with InputData := InputData, bIsRunning := true }) ∧
      (RunAsyncInference s InBSuccess OutBSuccess InputData Result).tasks
        = s.tasks ++ [FAsyncTask.AnyNormalThreadNormalTask p Result] := by
  obtain ⟨hm, hh⟩ := (current_eq_some_iff s p H).1 hcur
  constructor
  · rw [current_eq_some_iff]
    simp only [RunAsyncInference, hcur, hidle, Bool.not_false, if_true, modify_m_ModelHelper,
      modify_heap_same, hh, Option.map_some']
    exact ⟨hm, trivial⟩
  · simp [RunAsyncInference, hcur, hidle]

/-- C1: when the current helper is valid and its running flag is set, `RunAsyncInference`
returns the state it was given: buffers, bindings, both running flags, the task queue and the
trace of callback invocations are all unchanged, whatever the input tensor and delegate. -/
theorem RunAsyncInference_running_is_noop (s : ANeuralNetwork) (p : Nat) (H : FModelHelper)
    (InBSuccess OutBSuccess : Bool) (InputData : List ℚ) (Result : FNNEAsyncInferenceDelegate)
    (hcur : s.current = some (p, H)) (hrun : H.bIsRunning = true) :
    RunAsyncInference s InBSuccess OutBSuccess InputData Result = s :=
  RunAsyncInference_of_running s p H InBSuccess OutBSuccess InputData Result hcur hrun

/-- Witness for C1 at the session that has just dispatched an inference. -/
theorem RunAsyncInference_running_is_noop_witness :
    RunAsyncInference sampleDispatched false false [9, 9] (some 8) = sampleDispatched :=
  RunAsyncInference_running_is_noop sampleDispatched 0
    { ModelInstance := some sampleInstance, InputData := [1, 2, 3, 4], OutputData := [],
      InputBindings := [], OutputBindings := [], bIsRunning := true }
    false false [9, 9] (some 8) (by decide) rfl

/-- C2: when the current helper is valid and not running, after `RunAsyncInference` the
helper at the same pointer holds the input tensor as its input buffer, has its running flag
set, is otherwise unchanged, and exactly one unit of background work, capturing that pointer
and the delegate, has been added to the queue. -/
theorem RunAsyncInference_idle_dispatches (s : ANeuralNetwork) (p : Nat) (H : FModelHelper)
    (InBSuccess OutBSuccess : Bool) (InputData : List ℚ) (Result : FNNEAsyncInferenceDelegate)
    (hcur : s.current = some (p, H)) (hidle : H.bIsRunning = false) :
    (RunAsyncInference s InBSuccess OutBSuccess InputData Result).current
        = some (p, { H with InputData := InputData, bIsRunning := true }) ∧
      (RunAsyncInference s InBSuccess OutBSuccess InputData Result).tasks
        = s.tasks ++ [FAsyncTask.AnyNormalThreadNormalTask p Result] :=
  RunAsyncInference_of_idle s p H InBSuccess OutBSuccess InputData Result hcur hidle

/-- Witness for C2 at the freshly loaded session. -/
theorem RunAsyncInference_idle_dispatches_witness :
    (RunAsyncInference sampleLoaded true true [1, 2, 3, 4] (some 7)).current
        = some (0, { ModelInstance := some sampleInstance, InputData := [1, 2, 3, 4],
                     OutputData := [], InputBindings := [], OutputBindings := [],
                     bIsRunning := true }) ∧
      (RunAsyncInference sampleLoaded true true [1, 2, 3, 4] (some 7)).tasks
        = sampleLoaded.tasks ++ [FAsyncTask.AnyNormalThreadNormalTask 0 (some 7)] :=
  RunAsyncInference_idle_dispatches sampleLoaded 0
    { ModelInstance := some sampleInstance, InputData := [], OutputData := [],
      InputBindings := [], OutputBindings := [], bIsRunning := false }
    true true [1, 2, 3, 4] (some 7) (by decide) rfl

/-! ## At most one inference in flight -/

/-- Counterexample to C3: from the freshly loaded session, `RunAsyncInference`, then
`GetInputTensorDescs` called with `isModelRunning = true`, then `RunAsyncInference` again
leaves two inferences in flight. -/
theorem two_inferences_in_flight :
    (CreateCPUModel ANeuralNetwork.ctor sampleCreation).2 = true ∧
    (run sampleRunSync (CreateCPUModel ANeuralNetwork.ctor sampleCreation).1
      [FStep.RunAsyncInference true true [1, 2, 3, 4] (some 7),
       FStep.GetInputTensorDescs true 0,
       FStep.RunAsyncInference true true [4, 3, 2, 1] (some 7)]).map inFlight = some 2 := by
  decide

/-! ## Frame lemmas -/

theorem modify_runningFlags (s : ANeuralNetwork) (p : Nat) (f : FModelHelper → FModelHelper)
    (hf : ∀ H, (f H).bIsRunning = H.bIsRunning) :
    runningFlags (s.modify p f) = runningFlags s := by
  unfold runningFlags ANeuralNetwork.modify
  cases h : s.heap[p]? with
  | none => rfl
  | some H =>
    apply List.ext_getElem?
    intro j
    simp only [List.getElem?_map, List.getElem?_set]
    by_cases hj : p = j
    · subst hj
      have hp : p < s.heap.length := by
        by_contra hc
        rw [List.getElem?_eq_none (by omega)] at h
        cases h
      simp [h, hf, hp]
    · simp [hj]

theorem stopIfRunning_false (s : ANeuralNetwork) (p : Nat) :
    s.stopIfRunning p false = s := by
  simp [ANeuralNetwork.stopIfRunning]

@[simp] theorem stopIfRunning_tasks (s : ANeuralNetwork) (p : Nat) (b : Bool) :
    (s.stopIfRunning p b).tasks = s.tasks := by
  cases b <;> simp [ANeuralNetwork.stopIfRunning]

@[simp] theorem stopIfRunning_trace (s : ANeuralNetwork) (p : Nat) (b : Bool) :
    (s.stopIfRunning p b).trace = s.trace := by
  cases b <;> simp [ANeuralNetwork.stopIfRunning]

@[simp] theorem stopIfRunning_m_ModelHelper (s : ANeuralNetwork) (p : Nat) (b : Bool) :
    (s.stopIfRunning p b).m_ModelHelper = s.m_ModelHelper := by
  cases b <;> simp [ANeuralNetwork.stopIfRunning]

theorem GetInputTensorDescs_frame (s s' : ANeuralNetwork) (b : Bool) (Inputs0 : Int)
    (r : Int × Int) (h : GetInputTensorDescs s b Inputs0 = some (s', r)) :
    s'.tasks = s.tasks ∧ s'.m_ModelHelper = s.m_ModelHelper ∧
      (b = false → runningFlags s' = runningFlags s) := by
  unfold GetInputTensorDescs at h
  dsimp only at h
  repeat' split at h
  all_goals first
    | (cases h; done)
    | (simp only [Option.some.injEq, Prod.mk.injEq] at h
       obtain ⟨rfl, -⟩ := h
       refine ⟨by simp, by simp, ?_⟩
       rintro rfl
       simp [stopIfRunning_false, runningFlags])

theorem GetOutputTensorDescs_frame (s s' : ANeuralNetwork) (b : Bool) (Outputs0 : Int)
    (r : Int) (h : GetOutputTensorDescs s b Outputs0 = some (s', r)) :
    s'.tasks = s.tasks ∧ s'.m_ModelHelper = s.m_ModelHelper ∧
      (b = false → runningFlags s' = runningFlags s) := by
  unfold GetOutputTensorDescs at h
  dsimp only at h
  repeat' split at h
  all_goals first
    | (cases h; done)
    | (simp only [Option.some.injEq, Prod.mk.injEq] at h
       obtain ⟨rfl, -⟩ := h
       refine ⟨by simp, by simp, ?_⟩
       rintro rfl
       simp [stopIfRunning_false, runningFlags])

theorem resolveInputShape_frame (s s' : ANeuralNetwork) (p : Nat) (H : FModelHelper)
    (Idx : Int) (b : Bool) (h : resolveInputShape s p H Idx b = some s') :
    s'.tasks = s.tasks ∧ s'.m_ModelHelper = s.m_ModelHelper ∧
      (b = false → runningFlags s' = runningFlags s) := by
  unfold resolveInputShape at h
  dsimp only at h
  repeat' split at h
  all_goals first
    | (cases h; done)
    | (simp only [Option.some.injEq] at h
       subst h
       refine ⟨by simp, by simp, ?_⟩
       rintro rfl
       simp [stopIfRunning_false, runningFlags])

theorem resolveOutputShape_frame (s s' : ANeuralNetwork) (p : Nat) (H : FModelHelper)
    (Idx : Int) (b : Bool) (h : resolveOutputShape s p H Idx b = some s') :
    s'.tasks = s.tasks ∧ s'.m_ModelHelper = s.m_ModelHelper ∧
      (b = false → runningFlags s' = runningFlags s) := by
  unfold resolveOutputShape at h
  dsimp only at h
  repeat' split at h
  all_goals first
    | (cases h; done)
    | (simp only [Option.some.injEq] at h
       subst h
       refine ⟨by simp, by simp, ?_⟩
       rintro rfl
       simp [stopIfRunning_false, runningFlags])

theorem GetInputTensorShape_frame (s s' : ANeuralNetwork) (Idx : Int) (b : Bool)
    (out r : FInputShapeInfo) (h : GetInputTensorShape s Idx b out = some (s', r)) :
    s'.tasks = s.tasks ∧ s'.m_ModelHelper = s.m_ModelHelper ∧
      (b = false → runningFlags s' = runningFlags s) := by
  unfold GetInputTensorShape at h
  split at h
  · cases h
  · split at h
    · cases h
    · rename_i hres
      split at h
      · cases h
      · simp only [Option.map_eq_some', Prod.mk.injEq] at h
        obtain ⟨o, -, rfl, -⟩ := h
        exact resolveInputShape_frame _ _ _ _ _ _ hres

theorem GetOutputTensorShape_frame (s s' : ANeuralNetwork) (Idx : Int) (b : Bool)
    (r : FOutputShapeInfo) (h : GetOutputTensorShape s Idx b = some (s', r)) :
    s'.tasks = s.tasks ∧ s'.m_ModelHelper = s.m_ModelHelper ∧
      (b = false → runningFlags s' = runningFlags s) := by
  unfold GetOutputTensorShape at h
  split at h
  · cases h
  · split at h
    · cases h
    · rename_i hres
      split at h
      · cases h
      · split at h
        · simp only [Option.some.injEq, Prod.mk.injEq] at h
          obtain ⟨rfl, -⟩ := h
          exact resolveOutputShape_frame _ _ _ _ _ _ hres
        · cases h

theorem SetInputTensorShapes_frame (s s' : ANeuralNetwork) (b : Bool)
    (Rank Dimension Frame ColorChannels Height Width : Int)
    (h : SetInputTensorShapes s b Rank Dimension Frame ColorChannels Height Width = some s') :
    s'.tasks = s.tasks ∧ s'.m_ModelHelper = s.m_ModelHelper ∧
      (b = false → runningFlags s' = runningFlags s) := by
  unfold SetInputTensorShapes at h
  dsimp only at h
  repeat' split at h
  all_goals first
    | (cases h; done)
    | (simp only [Option.some.injEq] at h
       subst h
       refine ⟨by simp, by simp, ?_⟩
       rintro rfl
       rw [modify_runningFlags, stopIfRunning_false]
       intro K
       rfl)

theorem CreateInputTensorBinding_frame (s s' : ANeuralNetwork) (b r : Bool)
    (h : CreateInputTensorBinding s b = some (s', r)) :
    s'.tasks = s.tasks ∧ s'.m_ModelHelper = s.m_ModelHelper ∧
      (b = false → runningFlags s' = runningFlags s) := by
  simp only [CreateInputTensorBinding, Option.bind_eq_bind, Option.bind_eq_some, Option.pure_def,
    Option.some.injEq, Prod.mk.injEq] at h
  obtain ⟨c, -, H, -, Shape, -, InputData, -, Bindings, -, InputBindings, -, rfl, -⟩ := h
  refine ⟨by simp, by simp, ?_⟩
  rintro rfl
  rw [modify_runningFlags, stopIfRunning_false]
  intro K
  rfl

theorem CreateOutputTensorBinding_frame (s s' : ANeuralNetwork) (b r : Bool)
    (h : CreateOutputTensorBinding s b = some (s', r)) :
    s'.tasks = s.tasks ∧ s'.m_ModelHelper = s.m_ModelHelper ∧
      (b = false → runningFlags s' = runningFlags s) := by
  simp only [CreateOutputTensorBinding, Option.bind_eq_bind, Option.bind_eq_some,
    Option.pure_def, Option.some.injEq, Prod.mk.injEq] at h
  obtain ⟨c, -, H, -, Shape, -, OutputData, -, Bindings, -, OutputBindings, -, rfl, -⟩ := h
  refine ⟨by simp, by simp, ?_⟩
  rintro rfl
  rw [modify_runningFlags, stopIfRunning_false]
  intro K
  rfl

theorem CreateCPUModel_tasks (s : ANeuralNetwork) (L : FModelCreation) :
    (CreateCPUModel s L).1.tasks = s.tasks := by
  unfold CreateCPUModel
  dsimp only
  repeat' split
  all_goals simp

theorem OnModelDataLoaded_tasks (s : ANeuralNetwork) (L : FModelCreation) :
    (OnModelDataLoaded s L).tasks = s.tasks := by
  unfold OnModelDataLoaded
  dsimp only
  repeat' split
  all_goals simp

/-! ## The single-flight invariant -/

theorem runningFlags_getElem? (s : ANeuralNetwork) (p : Nat) :
    (runningFlags s)[p]? = (s.heap[p]?).map (fun H => H.bIsRunning) := by
  simp [runningFlags]

theorem SingleFlight_of_frame (s s' : ANeuralNetwork) (st : FStep)
    (hinv : SingleFlight s) (hq : st.resetsRunning = false ∨ s.tasks = [])
    (h : s'.tasks = s.tasks ∧ s'.m_ModelHelper = s.m_ModelHelper ∧
      (st.resetsRunning = false → runningFlags s' = runningFlags s)) :
    SingleFlight s' := by
  obtain ⟨ht, hm, hf⟩ := h
  rcases hq with hq | hq
  · rcases hinv with h0 | ⟨t, h1, h2, h3⟩
    · exact Or.inl (ht.trans h0)
    · exact Or.inr ⟨t, ht.trans h1, hm.trans h2, by rw [hf hq]; exact h3⟩
  · exact Or.inl (ht.trans hq)

theorem SingleFlight_RunAsyncInference (s : ANeuralNetwork) (InB OutB : Bool)
    (InputData : List ℚ) (Result : FNNEAsyncInferenceDelegate) (hinv : SingleFlight s) :
    SingleFlight (RunAsyncInference s InB OutB InputData Result) := by
  cases hc : s.current with
  | none => simpa [RunAsyncInference, hc] using hinv
  | some c =>
    obtain ⟨p, H⟩ := c
    cases hr : H.bIsRunning with
    | true => rw [RunAsyncInference_of_running s p H InB OutB InputData Result hc hr]; exact hinv
    | false =>
      obtain ⟨hm, hh⟩ := (current_eq_some_iff s p H).1 hc
      obtain ⟨hcur', htasks⟩ := RunAsyncInference_of_idle s p H InB OutB InputData Result hc hr
      obtain ⟨hm', hh'⟩ := (current_eq_some_iff _ _ _).1 hcur'
      rcases hinv with h0 | ⟨t, h1, h2, h3⟩
      · refine Or.inr ⟨FAsyncTask.AnyNormalThreadNormalTask p Result, ?_, hm', ?_⟩
        · rw [htasks, h0]; rfl
        · rw [runningFlags_getElem?]
          simp only [FAsyncTask.ModelHelperPtr]
          rw [hh']
          rfl
      · exfalso
        rw [hm] at h2
        cases h2
        rw [runningFlags_getElem?, hh] at h3
        simp [hr] at h3

theorem singleton_getElem?_eq_some {α : Type} (t a : α) (i : Nat) (h : [t][i]? = some a) :
    i = 0 ∧ a = t := by
  cases i with
  | zero => simpa [eq_comm] using h
  | succ n => simp at h

theorem SingleFlight_runTask (RunSync : FRunSync) (s s' : ANeuralNetwork) (i : Nat)
    (hinv : SingleFlight s) (h : runTask RunSync s i = some s') : SingleFlight s' := by
  unfold runTask at h
  rcases hinv with h0 | ⟨t, h1, h2, h3⟩
  · simp [h0] at h
  · cases ht : s.tasks[i]? with
    | none => simp [ht] at h
    | some a =>
      rw [h1] at ht
      obtain ⟨rfl, rfl⟩ := singleton_getElem?_eq_some t a i ht
      rw [h1] at h
      cases a with
      | AnyNormalThreadNormalTask p R =>
        simp only [List.getElem?_cons_zero] at h
        cases hd : s.deref p with
        | none => simp [hd] at h
        | some H =>
          cases hi : H.ModelInstance with
          | none => simp [hd, hi] at h
          | some I =>
            simp only [hd, hi, Option.some.injEq] at h
            subst h
            refine Or.inr ⟨FAsyncTask.GameThread p R (RunSync H).2, ?_, ?_, ?_⟩
            · simp [h1]
            · simpa [FAsyncTask.ModelHelperPtr] using h2
            · show (runningFlags (s.modify p _))[p]? = some true
              rw [modify_runningFlags]
              · simpa [FAsyncTask.ModelHelperPtr] using h3
              · intro K
                rfl
      | GameThread p R Captured =>
        simp only [List.getElem?_cons_zero, Option.some.injEq] at h
        subst h
        exact Or.inl (by simp [h1])

theorem SingleFlight_apply (RunSync : FRunSync) (s s' : ANeuralNetwork) (st : FStep)
    (hinv : SingleFlight s) (hq : st.resetsRunning = false ∨ s.tasks = [])
    (h : st.apply RunSync s = some s') : SingleFlight s' := by
  cases st with
  | CreateCPUModel L =>
    simp only [FStep.apply, Option.some.injEq] at h
    subst h
    rcases hq with hq | hq
    · simp [FStep.resetsRunning] at hq
    · exact Or.inl ((CreateCPUModel_tasks s L).trans hq)
  | OnModelDataLoaded L =>
    simp only [FStep.apply, Option.some.injEq] at h
    subst h
    rcases hq with hq | hq
    · simp [FStep.resetsRunning] at hq
    · exact Or.inl ((OnModelDataLoaded_tasks s L).trans hq)
  | GetInputTensorDescs b Inputs0 =>
    simp only [FStep.apply, Option.map_eq_some'] at h
    obtain ⟨⟨s1, r⟩, h, rfl⟩ := h
    exact SingleFlight_of_frame s _ _ hinv hq (GetInputTensorDescs_frame s s1 b Inputs0 r h)
  | GetInputTensorShape Idx b out =>
    simp only [FStep.apply, Option.map_eq_some'] at h
    obtain ⟨⟨s1, r⟩, h, rfl⟩ := h
    exact SingleFlight_of_frame s _ _ hinv hq (GetInputTensorShape_frame s s1 Idx b out r h)
  | GetOutputTensorDescs b Outputs0 =>
    simp only [FStep.apply, Option.map_eq_some'] at h
    obtain ⟨⟨s1, r⟩, h, rfl⟩ := h
    exact SingleFlight_of_frame s _ _ hinv hq (GetOutputTensorDescs_frame s s1 b Outputs0 r h)
  | GetOutputTensorShape Idx b =>
    simp only [FStep.apply, Option.map_eq_some'] at h
    obtain ⟨⟨s1, r⟩, h, rfl⟩ := h
    exact SingleFlight_of_frame s _ _ hinv hq (GetOutputTensorShape_frame s s1 Idx b r h)
  | SetInputTensorShapes b Rank Dimension Frame ColorChannels Height Width =>
    simp only [FStep.apply] at h
    exact SingleFlight_of_frame s _ _ hinv hq
      (SetInputTensorShapes_frame s s' b Rank Dimension Frame ColorChannels Height Width h)
  | CreateInputTensorBinding b =>
    simp only [FStep.apply, Option.map_eq_some'] at h
    obtain ⟨⟨s1, r⟩, h, rfl⟩ := h
    exact SingleFlight_of_frame s _ _ hinv hq (CreateInputTensorBinding_frame s s1 b r h)
  | CreateOutputTensorBinding b =>
    simp only [FStep.apply, Option.map_eq_some'] at h
    obtain ⟨⟨s1, r⟩, h, rfl⟩ := h
    exact SingleFlight_of_frame s _ _ hinv hq (CreateOutputTensorBinding_frame s s1 b r h)
  | RunAsyncInference InB OutB InputData Result =>
    simp only [FStep.apply, Option.some.injEq] at h
    subst h
    exact SingleFlight_RunAsyncInference s InB OutB InputData Result hinv
  | runTask i =>
    simp only [FStep.apply] at h
    exact SingleFlight_runTask RunSync s s' i hinv h

theorem SingleFlight_run (RunSync : FRunSync) (steps : List FStep) :
    ∀ s s' : ANeuralNetwork, SingleFlight s → resetsOnlyWhenIdle RunSync s steps = true →
      run RunSync s steps = some s' → SingleFlight s' := by
  induction steps with
  | nil =>
    intro s s' hinv _ h
    simp only [run, Option.some.injEq] at h
    subst h
    exact hinv
  | cons st rest ih =>
    intro s s' hinv hq h
    simp only [run] at h
    simp only [resetsOnlyWhenIdle, Bool.and_eq_true, Bool.or_eq_true, Bool.not_eq_true',
      List.isEmpty_iff] at hq
    cases ha : st.apply RunSync s with
    | none => simp [ha] at h
    | some s1 =>
      simp only [ha] at h hq
      exact ih s1 s' (SingleFlight_apply RunSync s s1 st hinv hq.1 ha) hq.2 h

theorem SingleFlight_inFlight (s : ANeuralNetwork) (h : SingleFlight s) : inFlight s ≤ 1 := by
  rcases h with h0 | ⟨t, h1, -, -⟩
  · simp [inFlight, h0]
  · simp [inFlight, h1]

/-- C3 (amended): from a session with no inference in flight, such as a freshly loaded one,
every sequence of caller-facing operations and of compute and delivery steps in which a call
with `isModelRunning = true` and a model (re)load happen only while no inference is in flight
ends in a state with at most one inference in flight. -/
theorem at_most_one_in_flight (RunSync : FRunSync) (s0 s : ANeuralNetwork)
    (steps : List FStep) (h0 : inFlight s0 = 0)
    (hq : resetsOnlyWhenIdle RunSync s0 steps = true)
    (hrun : run RunSync s0 steps = some s) : inFlight s ≤ 1 :=
  SingleFlight_inFlight s
    (SingleFlight_run RunSync steps s0 s (Or.inl (List.length_eq_zero.1 h0)) hq hrun)

/-- Witness for C3 (amended): the freshly loaded session and a sequence with a refused
dispatch, a completed inference and a second dispatch. -/
theorem at_most_one_in_flight_witness :
    inFlight sampleLoaded = 0 ∧ resetsOnlyWhenIdle sampleRunSync sampleLoaded sampleSteps = true ∧
      ∃ s, run sampleRunSync sampleLoaded sampleSteps = some s ∧ inFlight s ≤ 1 :=
  match h : run sampleRunSync sampleLoaded sampleSteps with
  | some s =>
    ⟨by decide, by decide, s, rfl,
      at_most_one_in_flight sampleRunSync sampleLoaded s sampleSteps (by decide) (by decide) h⟩
  | none => absurd h (by decide)

/-! ## A dispatched inference, run to completion -/

theorem RunAsyncInference_trace (s : ANeuralNetwork) (InB OutB : Bool) (InputData : List ℚ)
    (Result : FNNEAsyncInferenceDelegate) :
    (RunAsyncInference s InB OutB InputData Result).trace = s.trace := by
  unfold RunAsyncInference
  split
  · split <;> simp
  · rfl

theorem runTask_background (RunSync : FRunSync) (s : ANeuralNetwork) (i p : Nat)
    (R : FNNEAsyncInferenceDelegate) (H : FModelHelper)
    (ht : s.tasks[i]? = some (FAsyncTask.AnyNormalThreadNormalTask p R))
    (hd : s.deref p = some H) (hi : H.ModelInstance.isSome = true) :
    runTask RunSync s i = some
      { s.modify p (fun H1 => { H1 with OutputData := (RunSync H).2 }) with
        trace := s.trace ++ [Event.RunSyncReturned p (RunSync H).1],
        tasks := s.tasks.set i (FAsyncTask.GameThread p R (RunSync H).2) } := by
  obtain ⟨I, hI⟩ := Option.isSome_iff_exists.1 hi
  simp [runTask, ht, hd, hI]

theorem runTask_delivery (RunSync : FRunSync) (s : ANeuralNetwork) (i p : Nat)
    (R : FNNEAsyncInferenceDelegate) (Captured : List ℚ)
    (ht : s.tasks[i]? = some (FAsyncTask.GameThread p R Captured)) :
    runTask RunSync s i = some
      { ({ s with trace := s.trace ++ ExecuteIfBound R Captured }).modify p
          (fun H1 => { H1 with bIsRunning := false }) with
        tasks := s.tasks.eraseIdx i } := by
  simp [runTask, ht]

theorem set_eraseIdx_concat {α : Type} (l : List α) (a b : α) :
    ((l ++ [a]).set l.length b).eraseIdx l.length = l := by
  induction l with
  | nil => rfl
  | cons x xs ih => simpa using ih

theorem runTask_compute_spec (RunSync : FRunSync) (s : ANeuralNetwork) (i p : Nat)
    (R : FNNEAsyncInferenceDelegate) (H : FModelHelper)
    (ht : s.tasks[i]? = some (FAsyncTask.AnyNormalThreadNormalTask p R))
    (hd : s.deref p = some H) (hi : H.ModelInstance.isSome = true) :
    ∃ s2, runTask RunSync s i = some s2 ∧
      s2.trace = s.trace ++ [Event.RunSyncReturned p (RunSync H).1] ∧
      s2.tasks = s.tasks.set i (FAsyncTask.GameThread p R (RunSync H).2) ∧
      s2.deref p = some { H with OutputData := (RunSync H).2 } :=
  ⟨_, runTask_background RunSync s i p R H ht hd hi, rfl, rfl, by
    have h := modify_heap_same s p (fun H1 => { H1 with OutputData := (RunSync H).2 })
    rw [show s.heap[p]? = some H from hd] at h
    exact h⟩

theorem runTask_delivery_spec (RunSync : FRunSync) (s : ANeuralNetwork) (i p : Nat)
    (R : FNNEAsyncInferenceDelegate) (Captured : List ℚ)
    (ht : s.tasks[i]? = some (FAsyncTask.GameThread p R Captured)) :
    ∃ s3, runTask RunSync s i = some s3 ∧
      s3.trace = s.trace ++ ExecuteIfBound R Captured ∧
      s3.tasks = s.tasks.eraseIdx i :=
  ⟨_, runTask_delivery RunSync s i p R Captured ht, by simp, rfl⟩

/-- C4: an inference dispatched by `RunAsyncInference` with a bound delegate, on a helper that
holds a model instance, runs to completion in two steps. The compute step calls `RunSync` and
leaves `Output` in the captured helper's output buffer; the delivery step then executes the
delegate. Over both steps the trace grows by exactly the return of `RunSync` followed by one
execution of the delegate, whose argument is that output buffer, and the unit of work has
left the queue. The status code `status` is arbitrary: zero or not. -/
theorem dispatched_inference_delivers_once (RunSync : FRunSync) (s : ANeuralNetwork) (p : Nat)
    (H : FModelHelper) (InBSuccess OutBSuccess : Bool) (InputData : List ℚ) (callback : Nat)
    (status : Int) (Output : List ℚ)
    (hcur : s.current = some (p, H)) (hidle : H.bIsRunning = false)
    (hinst : H.ModelInstance.isSome = true)
    (hengine : RunSync { H with InputData := InputData, bIsRunning := true }
      = (status, Output)) :
    ∃ s2 s3 H2,
      runTask RunSync (RunAsyncInference s InBSuccess OutBSuccess InputData (some callback))
          s.tasks.length = some s2 ∧
      s2.trace = s.trace ++ [Event.RunSyncReturned p status] ∧
      s2.deref p = some H2 ∧ H2.OutputData = Output ∧
      runTask RunSync s2 s.tasks.length = some s3 ∧
      s3.trace = s.trace ++
        [Event.RunSyncReturned p status, Event.ExecuteIfBound callback H2.OutputData] ∧
      s3.tasks = s.tasks := by
  obtain ⟨hc1, ht1⟩ :=
    RunAsyncInference_of_idle s p H InBSuccess OutBSuccess InputData (some callback) hcur hidle
  obtain ⟨-, hh1⟩ := (current_eq_some_iff _ _ _).1 hc1
  have htr1 := RunAsyncInference_trace s InBSuccess OutBSuccess InputData (some callback)
  generalize RunAsyncInference s InBSuccess OutBSuccess InputData (some callback) = s1
    at hc1 ht1 hh1 htr1
  have hq1 : s1.tasks[s.tasks.length]?
      = some (FAsyncTask.AnyNormalThreadNormalTask p (some callback)) := by
    rw [ht1]; simp
  obtain ⟨s2, hstep1, htr2, ht2, hd2⟩ :=
    runTask_compute_spec RunSync s1 s.tasks.length p (some callback) _ hq1 hh1 hinst
  rw [hengine] at htr2 ht2 hd2
  have hq2 : s2.tasks[s.tasks.length]?
      = some (FAsyncTask.GameThread p (some callback) Output) := by
    rw [ht2, ht1]; simp
  obtain ⟨s3, hstep2, htr3, ht3⟩ :=
    runTask_delivery_spec RunSync s2 s.tasks.length p (some callback) Output hq2
  refine ⟨s2, s3, _, hstep1, ?_, hd2, rfl, hstep2, ?_, ?_⟩
  · rw [htr2, htr1]
  · rw [htr3, htr2, htr1]
    simp [ExecuteIfBound]
  · rw [ht3, ht2, ht1]
    exact set_eraseIdx_concat _ _ _

/-- Witness for C4: the freshly loaded session, the callback 7 and an engine that fails with
status 1. -/
theorem dispatched_inference_delivers_once_witness :
    ∃ s2 s3 H2,
      runTask sampleRunSync (RunAsyncInference sampleLoaded true true [1, 2, 3, 4] (some 7))
          sampleLoaded.tasks.length = some s2 ∧
      s2.trace = sampleLoaded.trace ++ [Event.RunSyncReturned 0 1] ∧
      s2.deref 0 = some H2 ∧ H2.OutputData = [5, 6, 7] ∧
      runTask sampleRunSync s2 sampleLoaded.tasks.length = some s3 ∧
      s3.trace = sampleLoaded.trace ++
        [Event.RunSyncReturned 0 1, Event.ExecuteIfBound 7 H2.OutputData] ∧
      s3.tasks = sampleLoaded.tasks :=
  dispatched_inference_delivers_once sampleRunSync sampleLoaded 0
    { ModelInstance := some sampleInstance, InputData := [], OutputData := [],
      InputBindings := [], OutputBindings := [], bIsRunning := false }
    true true [1, 2, 3, 4] 7 1 [5, 6, 7] (by decide) rfl rfl rfl

/-! ## Machine integers and `SetNumZeroed` -/

theorem toInt32_of_range (z : Int) (h0 : 0 ≤ z) (h1 : z ≤ INT32_MAX) : toInt32 z = z := by
  unfold INT32_MAX at h1
  unfold toInt32
  omega

theorem SetNumZeroed_spec {α : Type} [Zero α] (xs : List α) (n : Nat) :
    ∃ ys, SetNumZeroed xs (n : Int) = some ys ∧ ys.length = n ∧
      (∀ i, i < xs.length → ys[i]? = (xs.take n)[i]?) ∧
      (∀ i, xs.length ≤ i → i < n → ys[i]? = some 0) := by
  unfold SetNumZeroed Num
  have hneg : ¬ ((n : Int) < 0) := by omega
  simp only [hneg, if_false]
  by_cases hgt : (n : Int) > (xs.length : Int)
  · have hlt : xs.length < n := by omega
    refine ⟨_, if_pos hgt, ?_, ?_, ?_⟩
    · simp
      omega
    · intro i hi
      rw [List.take_of_length_le (by omega), List.getElem?_append_left hi]
    · intro i hi hin
      rw [List.getElem?_append_right hi]
      simp [List.getElem?_replicate]
      omega
  · simp only [hgt, if_false]
    by_cases hlt : (n : Int) < (xs.length : Int)
    · refine ⟨_, if_pos hlt, ?_, ?_, ?_⟩
      · simp
        omega
      · intro i _
        simp
      · intro i hi hin
        omega
    · have heq : xs.length = n := by omega
      refine ⟨_, if_neg hlt, heq, ?_, ?_⟩
      · intro i _
        rw [List.take_of_length_le (by omega)]
      · intro i hi hin
        omega

theorem length_one_eq {α : Type} (l : List α) (h : l.length = 1) : ∃ a, l = [a] := by
  match l, h with
  | [a], _ => exact ⟨a, rfl⟩

theorem stopIfRunning_heap (s : ANeuralNetwork) (p : Nat) (b : Bool) :
    (s.stopIfRunning p b).heap[p]?
      = (s.heap[p]?).map (fun H => { H with bIsRunning := H.bIsRunning && !b }) := by
  cases b with
  | false => cases h : s.heap[p]? <;> simp [ANeuralNetwork.stopIfRunning, h]
  | true =>
    simp only [ANeuralNetwork.stopIfRunning, if_true, modify_heap_same]
    cases h : s.heap[p]? <;> simp

@[simp] theorem stopIfRunning_InputTensorShapes (s : ANeuralNetwork) (p : Nat) (b : Bool) :
    (s.stopIfRunning p b).InputTensorShapes = s.InputTensorShapes := by
  cases b <;> simp [ANeuralNetwork.stopIfRunning]

@[simp] theorem stopIfRunning_OutputTensorShapes (s : ANeuralNetwork) (p : Nat) (b : Bool) :
    (s.stopIfRunning p b).OutputTensorShapes = s.OutputTensorShapes := by
  cases b <;> simp [ANeuralNetwork.stopIfRunning]

theorem readAt_cons_zero {α : Type} (x : α) (xs : List α) : readAt (x :: xs) 0 = some x := by
  simp [readAt]

theorem writeAt_singleton_zero {α : Type} (x v : α) : writeAt [x] 0 v = some [v] := by
  simp [writeAt, Num]

theorem Num_toNat {α : Type} (xs : List α) : (Num xs).toNat = xs.length := by
  simp [Num]

theorem CreateInputTensorBinding_eq (s : ANeuralNetwork) (p : Nat) (H : FModelHelper)
    (b : Bool) (Shape : FTensorShape) (rest : List FTensorShape) (ys : List ℚ)
    (hcur : s.current = some (p, H)) (hshape : s.InputTensorShapes = Shape :: rest)
    (hys : SetNumZeroed H.InputData (toInt32 (Shape.Volume : Int)) = some ys) :
    CreateInputTensorBinding s b = some ((s.stopIfRunning p b).modify p (fun H1 =>
      { H1 with InputData := ys
                InputBindings := [⟨some (BufferRef.InputData p), ys.length * 4⟩] }), true) ∧
    ((s.stopIfRunning p b).modify p (fun H1 =>
      { H1 with InputData := ys
                InputBindings := [⟨some (BufferRef.InputData p), ys.length * 4⟩] })).current
      = some (p, { H with InputData := ys
                          InputBindings := [⟨some (BufferRef.InputData p), ys.length * 4⟩]
                          bIsRunning := (H.bIsRunning && !b) }) := by
  obtain ⟨hm, hh⟩ := (current_eq_some_iff s p H).1 hcur
  obtain ⟨bs, hbs, hblen, -, -⟩ := SetNumZeroed_spec H.InputBindings 1
  obtain ⟨b0, rfl⟩ := length_one_eq bs hblen
  have hbs' : SetNumZeroed H.InputBindings 1 = some [b0] := hbs
  have hd : (s.stopIfRunning p b).deref p
      = some { H with bIsRunning := (H.bIsRunning && !b) } := by
    simp [ANeuralNetwork.deref, stopIfRunning_heap, hh]
  constructor
  · unfold CreateInputTensorBinding
    simp only [Option.bind_eq_bind, Option.pure_def]
    rw [hcur, Option.some_bind]
    simp only []
    rw [hd, Option.some_bind, stopIfRunning_InputTensorShapes, hshape, readAt_cons_zero,
      Option.some_bind, hys, Option.some_bind, hbs', Option.some_bind,
      writeAt_singleton_zero, Option.some_bind, Num_toNat]
  · rw [current_eq_some_iff]
    refine ⟨by simpa using hm, ?_⟩
    rw [modify_heap_same, stopIfRunning_heap, hh]
    simp only [Option.map_some']

theorem CreateOutputTensorBinding_eq (s : ANeuralNetwork) (p : Nat) (H : FModelHelper)
    (b : Bool) (Shape : FTensorShape) (rest : List FTensorShape) (ys : List ℚ)
    (hcur : s.current = some (p, H)) (hshape : s.OutputTensorShapes = Shape :: rest)
    (hys : SetNumZeroed H.OutputData (toInt32 (Shape.Volume : Int)) = some ys) :
    CreateOutputTensorBinding s b = some ((s.stopIfRunning p b).modify p (fun H1 =>
      { H1 with OutputData := ys
                OutputBindings := [⟨some (BufferRef.OutputData p), ys.length * 4⟩] }), true) ∧
    ((s.stopIfRunning p b).modify p (fun H1 =>
      { H1 with OutputData := ys
                OutputBindings := [⟨some (BufferRef.OutputData p), ys.length * 4⟩] })).current
      = some (p, { H with OutputData := ys
                          OutputBindings := [⟨some (BufferRef.OutputData p), ys.length * 4⟩]
                          bIsRunning := (H.bIsRunning && !b) }) := by
  obtain ⟨hm, hh⟩ := (current_eq_some_iff s p H).1 hcur
  obtain ⟨bs, hbs, hblen, -, -⟩ := SetNumZeroed_spec H.OutputBindings 1
  obtain ⟨b0, rfl⟩ := length_one_eq bs hblen
  have hbs' : SetNumZeroed H.OutputBindings 1 = some [b0] := hbs
  have hd : (s.stopIfRunning p b).deref p
      = some { H with bIsRunning := (H.bIsRunning && !b) } := by
    simp [ANeuralNetwork.deref, stopIfRunning_heap, hh]
  constructor
  · unfold CreateOutputTensorBinding
    simp only [Option.bind_eq_bind, Option.pure_def]
    rw [hcur, Option.some_bind]
    simp only []
    rw [hd, Option.some_bind, stopIfRunning_OutputTensorShapes, hshape, readAt_cons_zero,
      Option.some_bind, hys, Option.some_bind, hbs', Option.some_bind,
      writeAt_singleton_zero, Option.some_bind, Num_toNat]
  · rw [current_eq_some_iff]
    refine ⟨by simpa using hm, ?_⟩
    rw [modify_heap_same, stopIfRunning_heap, hh]
    simp only [Option.map_some']

theorem SetNumZeroed_of_le (xs : List ℚ) (V : Nat) (hvol : (V : Int) ≤ INT32_MAX) :
    ∃ ys, SetNumZeroed xs (toInt32 (V : Int)) = some ys ∧ ys.length = V := by
  obtain ⟨ys, hys, hlen, -, -⟩ := SetNumZeroed_spec xs V
  exact ⟨ys, by rw [toInt32_of_range _ (Int.ofNat_nonneg _) hvol]; exact hys, hlen⟩

/-- C5 (amended): for a session whose resolved input shape has a volume `V` of at most
2147483647, `CreateInputTensorBinding` returns with the success flag set, the helper's input
buffer has exactly `V` elements and the helper has exactly one input binding, which names
that buffer and has `SizeInBytes = V * 4`; the same holds for `CreateOutputTensorBinding`
with the resolved output shape, the output buffer and the output binding. -/
theorem CreateTensorBinding_sizes (s : ANeuralNetwork) (p : Nat) (H : FModelHelper)
    (isModelRunning : Bool) (hcur : s.current = some (p, H)) :
    (∀ Shape rest, s.InputTensorShapes = Shape :: rest →
      (Shape.Volume : Int) ≤ INT32_MAX →
      ∃ s' H', CreateInputTensorBinding s isModelRunning = some (s', true) ∧
        s'.current = some (p, H') ∧ H'.InputData.length = Shape.Volume ∧
        H'.InputBindings = [⟨some (BufferRef.InputData p), Shape.Volume * 4⟩]) ∧
    (∀ Shape rest, s.OutputTensorShapes = Shape :: rest →
      (Shape.Volume : Int) ≤ INT32_MAX →
      ∃ s' H', CreateOutputTensorBinding s isModelRunning = some (s', true) ∧
        s'.current = some (p, H') ∧ H'.OutputData.length = Shape.Volume ∧
        H'.OutputBindings = [⟨some (BufferRef.OutputData p), Shape.Volume * 4⟩]) := by
  constructor
  · intro Shape rest hshape hvol
    obtain ⟨ys, hys, hlen⟩ := SetNumZeroed_of_le H.InputData Shape.Volume hvol
    obtain ⟨h1, h2⟩ :=
      CreateInputTensorBinding_eq s p H isModelRunning Shape rest ys hcur hshape hys
    exact ⟨_, _, h1, h2, hlen, by rw [hlen]⟩
  · intro Shape rest hshape hvol
    obtain ⟨ys, hys, hlen⟩ := SetNumZeroed_of_le H.OutputData Shape.Volume hvol
    obtain ⟨h1, h2⟩ :=
      CreateOutputTensorBinding_eq s p H isModelRunning Shape rest ys hcur hshape hys
    exact ⟨_, _, h1, h2, hlen, by rw [hlen]⟩

/-- Witness for C5 (amended): the sample session with input shape `[1,1,2,2]` and output
shape `[1,3]`. -/
theorem CreateTensorBinding_sizes_witness :
    (∃ s' H', CreateInputTensorBinding sampleResolved false = some (s', true) ∧
      s'.current = some (0, H') ∧ H'.InputData.length = 4 ∧
      H'.InputBindings = [⟨some (BufferRef.InputData 0), 4 * 4⟩]) ∧
    (∃ s' H', CreateOutputTensorBinding sampleResolved false = some (s', true) ∧
      s'.current = some (0, H') ∧ H'.OutputData.length = 3 ∧
      H'.OutputBindings = [⟨some (BufferRef.OutputData 0), 3 * 4⟩]) :=
  ⟨(CreateTensorBinding_sizes sampleResolved 0
      { ModelInstance := some sampleInstance, InputData := [], OutputData := [],
        InputBindings := [], OutputBindings := [], bIsRunning := false }
      false (by decide)).1 ⟨[1, 1, 2, 2]⟩ [] (by decide) (by decide),
   (CreateTensorBinding_sizes sampleResolved 0
      { ModelInstance := some sampleInstance, InputData := [], OutputData := [],
        InputBindings := [], OutputBindings := [], bIsRunning := false }
      false (by decide)).2 ⟨[1, 3]⟩ [] (by decide) (by decide)⟩

/-- Counterexample to C5: with the resolved input shape `[65536, 65536, 1, 1]`, of volume
4294967296, `CreateInputTensorBinding` succeeds with an input buffer of 0 elements and a
binding of 0 bytes: the volume does not fit the `int32` element count of the array. -/
theorem huge_shape_binding_is_empty :
    hugeResolved.InputTensorShapes = [⟨[65536, 65536, 1, 1]⟩] ∧
    (⟨[65536, 65536, 1, 1]⟩ : FTensorShape).Volume = 4294967296 ∧
    (CreateInputTensorBinding hugeResolved false).map
      (fun r => (r.1.current.map (fun c => (c.2.InputData.length, c.2.InputBindings)), r.2))
      = some (some (0, [⟨some (BufferRef.InputData 0), 0⟩]), true) := by
  decide

/-! ## `GetInputTensorShape` on rank-4 and rank-5 shapes -/

@[simp] theorem stopIfRunning_InputTensorDescs (s : ANeuralNetwork) (p : Nat) (b : Bool) :
    (s.stopIfRunning p b).InputTensorDescs = s.InputTensorDescs := by
  cases b <;> simp [ANeuralNetwork.stopIfRunning, ANeuralNetwork.modify]
  split <;> rfl

theorem MakeFromSymbolic_cast (ns : List Nat) :
    FTensorShape.MakeFromSymbolic ⟨ns.map (Nat.cast : Nat → Int)⟩ = ⟨ns⟩ := by
  have h : ∀ l : List Nat,
      (l.map (Nat.cast : Nat → Int)).map (fun d => if d < 0 then 1 else d.toNat) = l := by
    intro l
    induction l with
    | nil => rfl
    | cons n rest ih =>
      have hn : ¬ ((n : Int) < 0) := by omega
      rw [List.map_cons, List.map_cons, ih, if_neg hn]
      rfl
  unfold FTensorShape.MakeFromSymbolic
  rw [h]

theorem IsConcrete_cast (ns : List Nat) :
    (⟨ns.map (Nat.cast : Nat → Int)⟩ : FSymbolicTensorShape).IsConcrete = true := by
  simp [FSymbolicTensorShape.IsConcrete]

theorem resolveInputShape_of_concrete (s : ANeuralNetwork) (p : Nat) (H : FModelHelper)
    (b : Bool) (ns : List Nat) (hinst : H.ModelInstance.isSome = true)
    (hdesc : s.InputTensorDescs = [⟨⟨ns.map (Nat.cast : Nat → Int)⟩⟩]) :
    resolveInputShape s p H 0 b = some
      { s.stopIfRunning p b with
        SymbolicInputTensorShape := ⟨ns.map (Nat.cast : Nat → Int)⟩,
        InputTensorShapes := [⟨ns⟩] } := by
  unfold resolveInputShape
  rw [if_pos hinst]
  simp only []
  rw [stopIfRunning_InputTensorDescs, hdesc, readAt_cons_zero]
  simp only []
  rw [if_pos (IsConcrete_cast ns), MakeFromSymbolic_cast]

theorem readInputShape_rank4 (N C Ht W : Nat) (out : FInputShapeInfo) :
    readInputShape ⟨[N, C, Ht, W]⟩ out = some
      { Rank := 4, Volume := toInt32 ((N * C * Ht * W : Nat) : Int), Dimension := toInt32 N,
        Frame := 0, ColorChannels := toInt32 C, Height := toInt32 Ht, Width := toInt32 W } := by
  have hv : (⟨[N, C, Ht, W]⟩ : FTensorShape).Volume = N * C * Ht * W := by
    simp [FTensorShape.Volume, Nat.mul_assoc]
  unfold readInputShape
  rw [hv]
  rfl

theorem readInputShape_rank5 (N F C Ht W : Nat) (out : FInputShapeInfo) :
    readInputShape ⟨[N, F, C, Ht, W]⟩ out = some
      { Rank := 5, Volume := toInt32 ((N * F * C * Ht * W : Nat) : Int),
        Dimension := toInt32 N, Frame := toInt32 F, ColorChannels := toInt32 C,
        Height := toInt32 Ht, Width := toInt32 W } := by
  have hv : (⟨[N, F, C, Ht, W]⟩ : FTensorShape).Volume = N * F * C * Ht * W := by
    simp [FTensorShape.Volume, Nat.mul_assoc]
  unfold readInputShape
  rw [hv]
  rfl

theorem GetInputTensorShape_of_concrete (s : ANeuralNetwork) (p : Nat) (H : FModelHelper)
    (b : Bool) (ns : List Nat) (out : FInputShapeInfo) (hcur : s.current = some (p, H))
    (hinst : H.ModelInstance.isSome = true)
    (hdesc : s.InputTensorDescs = [⟨⟨ns.map (Nat.cast : Nat → Int)⟩⟩]) :
    GetInputTensorShape s 0 b out = (readInputShape ⟨ns⟩ out).map (fun o =>
      ({ s.stopIfRunning p b with
         SymbolicInputTensorShape := ⟨ns.map (Nat.cast : Nat → Int)⟩,
         InputTensorShapes := [⟨ns⟩] }, o)) := by
  unfold GetInputTensorShape
  rw [hcur]
  simp only []
  rw [resolveInputShape_of_concrete s p H b ns hinst hdesc]
  simp only []
  rw [readAt_cons_zero]

/-- C6 (amended): with a valid model instance and a single input descriptor whose concrete
shape has `int32` dimensions and a volume of at most 2147483647, `GetInputTensorShape` with
index 0 returns, for `[N,C,H,W]`, `Rank = 4`, `Volume = N*C*H*W`, `Dimension = N`,
`Frame = 0`, `ColorChannels = C`, `Height = H`, `Width = W`, and for `[N,F,C,H,W]`,
`Rank = 5`, `Volume = N*F*C*H*W`, `Dimension = N`, `Frame = F`, `ColorChannels = C`,
`Height = H`, `Width = W`. -/
theorem GetInputTensorShape_fields (s : ANeuralNetwork) (p : Nat) (H : FModelHelper)
    (isModelRunning : Bool) (out : FInputShapeInfo) (hcur : s.current = some (p, H))
    (hinst : H.ModelInstance.isSome = true) :
    (∀ N C Ht W : Nat, s.InputTensorDescs = [⟨⟨[(N : Int), C, Ht, W]⟩⟩] →
      (N : Int) ≤ INT32_MAX → (C : Int) ≤ INT32_MAX → (Ht : Int) ≤ INT32_MAX →
      (W : Int) ≤ INT32_MAX → ((N * C * Ht * W : Nat) : Int) ≤ INT32_MAX →
      ∃ s', GetInputTensorShape s 0 isModelRunning out = some (s',
        { Rank := 4, Volume := ((N * C * Ht * W : Nat) : Int), Dimension := N, Frame := 0,
          ColorChannels := C, Height := Ht, Width := W })) ∧
    (∀ N F C Ht W : Nat, s.InputTensorDescs = [⟨⟨[(N : Int), F, C, Ht, W]⟩⟩] →
      (N : Int) ≤ INT32_MAX → (F : Int) ≤ INT32_MAX → (C : Int) ≤ INT32_MAX →
      (Ht : Int) ≤ INT32_MAX → (W : Int) ≤ INT32_MAX →
      ((N * F * C * Ht * W : Nat) : Int) ≤ INT32_MAX →
      ∃ s', GetInputTensorShape s 0 isModelRunning out = some (s',
        { Rank := 5, Volume := ((N * F * C * Ht * W : Nat) : Int), Dimension := N, Frame := F,
          ColorChannels := C, Height := Ht, Width := W })) := by
  constructor
  · intro N C Ht W hdesc hN hC hHt hW hV
    have h := GetInputTensorShape_of_concrete s p H isModelRunning [N, C, Ht, W] out hcur hinst
      hdesc
    rw [readInputShape_rank4, toInt32_of_range _ (Int.ofNat_nonneg _) hV,
      toInt32_of_range _ (Int.ofNat_nonneg _) hN, toInt32_of_range _ (Int.ofNat_nonneg _) hC,
      toInt32_of_range _ (Int.ofNat_nonneg _) hHt, toInt32_of_range _ (Int.ofNat_nonneg _) hW]
      at h
    exact ⟨_, h⟩
  · intro N F C Ht W hdesc hN hF hC hHt hW hV
    have h := GetInputTensorShape_of_concrete s p H isModelRunning [N, F, C, Ht, W] out hcur
      hinst hdesc
    rw [readInputShape_rank5, toInt32_of_range _ (Int.ofNat_nonneg _) hV,
      toInt32_of_range _ (Int.ofNat_nonneg _) hN, toInt32_of_range _ (Int.ofNat_nonneg _) hF,
      toInt32_of_range _ (Int.ofNat_nonneg _) hC, toInt32_of_range _ (Int.ofNat_nonneg _) hHt,
      toInt32_of_range _ (Int.ofNat_nonneg _) hW] at h
    exact ⟨_, h⟩

/-- Witness for C6 (amended): the shapes `[1,1,2,2]` and `[1,2,1,2,2]`. -/
theorem GetInputTensorShape_fields_witness :
    (∃ s', GetInputTensorShape sampleDescribed 0 false ⟨9, 9, 9, 9, 9, 9, 9⟩ = some (s',
      { Rank := 4, Volume := ((1 * 1 * 2 * 2 : Nat) : Int), Dimension := (1 : Nat),
        Frame := 0, ColorChannels := (1 : Nat), Height := (2 : Nat), Width := (2 : Nat) })) ∧
    (∃ s', GetInputTensorShape sampleDescribed5 0 false ⟨9, 9, 9, 9, 9, 9, 9⟩ = some (s',
      { Rank := 5, Volume := ((1 * 2 * 1 * 2 * 2 : Nat) : Int), Dimension := (1 : Nat),
        Frame := (2 : Nat), ColorChannels := (1 : Nat), Height := (2 : Nat),
        Width := (2 : Nat) })) :=
  ⟨(GetInputTensorShape_fields sampleDescribed 0
      { ModelInstance := some sampleInstance, InputData := [], OutputData := [],
        InputBindings := [], OutputBindings := [], bIsRunning := false }
      false ⟨9, 9, 9, 9, 9, 9, 9⟩ (by decide) rfl).1 1 1 2 2 (by decide)
      (by decide) (by decide) (by decide) (by decide) (by decide),
   (GetInputTensorShape_fields sampleDescribed5 0
      { ModelInstance := some { InputTensorDescs := [⟨⟨[1, 2, 1, 2, 2]⟩⟩],
                                OutputTensorDescs := [⟨⟨[1, 3]⟩⟩],
                                InputTensorShapes := [] },
        InputData := [], OutputData := [],
        InputBindings := [], OutputBindings := [], bIsRunning := false }
      false ⟨9, 9, 9, 9, 9, 9, 9⟩ (by decide) rfl).2 1 2 1 2 2 (by decide)
      (by decide) (by decide) (by decide) (by decide) (by decide) (by decide)⟩

/-- Counterexample to C6: for the concrete shape `[65536, 65536, 1, 1]`, whose volume is
4294967296, `GetInputTensorShape` returns `Volume = 0`. -/
theorem huge_shape_volume_wraps :
    hugeLoaded.InputTensorDescs = [⟨⟨[65536, 65536, 1, 1]⟩⟩] ∧
    (GetInputTensorShape hugeLoaded 0 false ⟨0, 0, 0, 0, 0, 0, 0⟩).map (fun r => r.2)
      = some { Rank := 4, Volume := 0, Dimension := 65536, Frame := 0,
               ColorChannels := 65536, Height := 1, Width := 1 } ∧
    (65536 * 65536 * 1 * 1 : Int) ≠ 0 := by
  decide

/-! ## `SetInputTensorShapes`: which shape list is applied -/

theorem appliedShapes_cases (Stored : List FTensorShape)
    (Rank Dimension Frame ColorChannels Height Width : Int) :
    (Rank = 4 → appliedShapes Stored Rank Dimension Frame ColorChannels Height Width
      = [⟨[toUInt32 Dimension, toUInt32 ColorChannels, toUInt32 Height, toUInt32 Width]⟩]) ∧
    (Rank = 5 → appliedShapes Stored Rank Dimension Frame ColorChannels Height Width
      = [⟨[toUInt32 Dimension, toUInt32 Frame, toUInt32 ColorChannels, toUInt32 Height,
           toUInt32 Width]⟩]) ∧
    (Rank = 0 → appliedShapes Stored Rank Dimension Frame ColorChannels Height Width
      = [⟨[]⟩]) ∧
    (Rank ≠ 4 → Rank ≠ 5 → Rank ≠ 0 →
      appliedShapes Stored Rank Dimension Frame ColorChannels Height Width = Stored) := by
  refine ⟨?_, ?_, ?_, ?_⟩
  · rintro rfl
    rfl
  · rintro rfl
    rfl
  · rintro rfl
    rfl
  · intro h4 h5 h0
    have hne : ¬ ((0 : Int) = Rank) := fun h => h0 h.symm
    simp [appliedShapes, InputShapeData, h4, h5, Num, hne]

/-- C7 (evaluation at the failing input): on the sample session, whose stored input shape
list is `[[1,1,2,2]]`, `SetInputTensorShapes` with `Rank = 0` hands the model instance the
single empty shape, of rank 0, not the stored list. -/
theorem SetInputTensorShapes_rank_zero_applies_empty_shape :
    sampleResolved.InputTensorShapes = [⟨[1, 1, 2, 2]⟩] ∧
    (SetInputTensorShapes sampleResolved false 0 1 0 1 2 2).map
      (fun s => s.current.map (fun c => c.2.ModelInstance.map (fun I => I.InputTensorShapes)))
      = some (some (some [⟨[]⟩])) := by
  decide

/-! ## The accessors and the running flag -/

@[simp] theorem stopIfRunning_IsModelRunning (s : ANeuralNetwork) (p : Nat) (b : Bool) :
    (s.stopIfRunning p b).IsModelRunning = (s.IsModelRunning && !b) := by
  cases b <;> simp [ANeuralNetwork.stopIfRunning]

theorem GetInputTensorDescs_heap (s s' : ANeuralNetwork) (p : Nat) (H : FModelHelper)
    (b : Bool) (Inputs0 : Int) (r : Int × Int) (hcur : s.current = some (p, H))
    (hinst : H.ModelInstance.isSome = true)
    (h : GetInputTensorDescs s b Inputs0 = some (s', r)) :
    s'.heap = (s.stopIfRunning p b).heap ∧ s'.m_ModelHelper = s.m_ModelHelper ∧
      s'.IsModelRunning = (s.IsModelRunning && !b) := by
  obtain ⟨I, hI⟩ := Option.isSome_iff_exists.1 hinst
  unfold GetInputTensorDescs at h
  rw [hcur] at h
  simp only [hI] at h
  split at h
  · simp only [Option.some.injEq, Prod.mk.injEq] at h
    obtain ⟨rfl, -⟩ := h
    simp
  · cases h

theorem GetOutputTensorDescs_heap (s s' : ANeuralNetwork) (p : Nat) (H : FModelHelper)
    (b : Bool) (Outputs0 : Int) (r : Int) (hcur : s.current = some (p, H))
    (hinst : H.ModelInstance.isSome = true)
    (h : GetOutputTensorDescs s b Outputs0 = some (s', r)) :
    s'.heap = (s.stopIfRunning p b).heap ∧ s'.m_ModelHelper = s.m_ModelHelper ∧
      s'.IsModelRunning = (s.IsModelRunning && !b) := by
  obtain ⟨I, hI⟩ := Option.isSome_iff_exists.1 hinst
  unfold GetOutputTensorDescs at h
  rw [hcur] at h
  simp only [hI] at h
  split at h
  · simp only [Option.some.injEq, Prod.mk.injEq] at h
    obtain ⟨rfl, -⟩ := h
    simp
  · cases h

theorem resolveInputShape_heap (s s' : ANeuralNetwork) (p : Nat) (H : FModelHelper)
    (Idx : Int) (b : Bool) (hinst : H.ModelInstance.isSome = true)
    (h : resolveInputShape s p H Idx b = some s') :
    s'.heap = (s.stopIfRunning p b).heap ∧ s'.m_ModelHelper = s.m_ModelHelper ∧
      s'.IsModelRunning = (s.IsModelRunning && !b) := by
  unfold resolveInputShape at h
  rw [if_pos hinst] at h
  dsimp only at h
  repeat' split at h
  all_goals first
    | (cases h; done)
    | (simp only [Option.some.injEq] at h
       subst h
       simp)

theorem resolveOutputShape_heap (s s' : ANeuralNetwork) (p : Nat) (H : FModelHelper)
    (Idx : Int) (b : Bool) (hinst : H.ModelInstance.isSome = true)
    (h : resolveOutputShape s p H Idx b = some s') :
    s'.heap = (s.stopIfRunning p b).heap ∧ s'.m_ModelHelper = s.m_ModelHelper ∧
      s'.IsModelRunning = (s.IsModelRunning && !b) := by
  unfold resolveOutputShape at h
  rw [if_pos hinst] at h
  dsimp only at h
  repeat' split at h
  all_goals first
    | (cases h; done)
    | (simp only [Option.some.injEq] at h
       subst h
       simp)

theorem GetInputTensorShape_heap (s s' : ANeuralNetwork) (p : Nat) (H : FModelHelper)
    (Idx : Int) (b : Bool) (out r : FInputShapeInfo) (hcur : s.current = some (p, H))
    (hinst : H.ModelInstance.isSome = true)
    (h : GetInputTensorShape s Idx b out = some (s', r)) :
    s'.heap = (s.stopIfRunning p b).heap ∧ s'.m_ModelHelper = s.m_ModelHelper ∧
      s'.IsModelRunning = (s.IsModelRunning && !b) := by
  unfold GetInputTensorShape at h
  rw [hcur] at h
  dsimp only at h
  split at h
  · cases h
  · rename_i hres
    split at h
    · cases h
    · simp only [Option.map_eq_some', Prod.mk.injEq] at h
      obtain ⟨o, -, rfl, -⟩ := h
      exact resolveInputShape_heap _ _ _ _ _ _ hinst hres

theorem GetOutputTensorShape_heap (s s' : ANeuralNetwork) (p : Nat) (H : FModelHelper)
    (Idx : Int) (b : Bool) (r : FOutputShapeInfo) (hcur : s.current = some (p, H))
    (hinst : H.ModelInstance.isSome = true)
    (h : GetOutputTensorShape s Idx b = some (s', r)) :
    s'.heap = (s.stopIfRunning p b).heap ∧ s'.m_ModelHelper = s.m_ModelHelper ∧
      s'.IsModelRunning = (s.IsModelRunning && !b) := by
  unfold GetOutputTensorShape at h
  rw [hcur] at h
  dsimp only at h
  split at h
  · cases h
  · rename_i hres
    split at h
    · cases h
    · split at h
      · simp only [Option.some.injEq, Prod.mk.injEq] at h
        obtain ⟨rfl, -⟩ := h
        exact resolveOutputShape_heap _ _ _ _ _ _ hinst hres
      · cases h

theorem FAccessor.call_heap (a : FAccessor) (s s' : ANeuralNetwork) (p : Nat)
    (H : FModelHelper) (b : Bool) (hcur : s.current = some (p, H))
    (hinst : H.ModelInstance.isSome = true) (h : a.call s b = some s') :
    s'.heap = (s.stopIfRunning p b).heap ∧ s'.m_ModelHelper = s.m_ModelHelper ∧
      s'.IsModelRunning = (s.IsModelRunning && !b) := by
  cases a with
  | GetInputTensorDescs Inputs0 =>
    simp only [FAccessor.call, Option.map_eq_some'] at h
    obtain ⟨⟨s1, r⟩, h, rfl⟩ := h
    exact GetInputTensorDescs_heap s s1 p H b Inputs0 r hcur hinst h
  | GetInputTensorShape Idx out =>
    simp only [FAccessor.call, Option.map_eq_some'] at h
    obtain ⟨⟨s1, r⟩, h, rfl⟩ := h
    exact GetInputTensorShape_heap s s1 p H Idx b out r hcur hinst h
  | GetOutputTensorDescs Outputs0 =>
    simp only [FAccessor.call, Option.map_eq_some'] at h
    obtain ⟨⟨s1, r⟩, h, rfl⟩ := h
    exact GetOutputTensorDescs_heap s s1 p H b Outputs0 r hcur hinst h
  | GetOutputTensorShape Idx =>
    simp only [FAccessor.call, Option.map_eq_some'] at h
    obtain ⟨⟨s1, r⟩, h, rfl⟩ := h
    exact GetOutputTensorShape_heap s s1 p H Idx b r hcur hinst h

/-- C10 (amended): with a valid model instance, after `GetInputTensorDescs`,
`GetInputTensorShape`, `GetOutputTensorDescs` or `GetOutputTensorShape` returns normally the
current helper is the same record with its running flag cleared if the call was made with
`isModelRunning = true` and unchanged if it was made with `isModelRunning = false`; the
session's `IsModelRunning` changes in the same way. -/
theorem accessor_running_flag (a : FAccessor) (s s' : ANeuralNetwork) (p : Nat)
    (H : FModelHelper) (isModelRunning : Bool) (hcur : s.current = some (p, H))
    (hinst : H.ModelInstance.isSome = true) (hret : a.call s isModelRunning = some s') :
    s'.current = some (p, { H with bIsRunning := (H.bIsRunning && !isModelRunning) }) ∧
      s'.IsModelRunning = (s.IsModelRunning && !isModelRunning) := by
  obtain ⟨hheap, hm, hflag⟩ := FAccessor.call_heap a s s' p H isModelRunning hcur hinst hret
  obtain ⟨hm0, hh0⟩ := (current_eq_some_iff s p H).1 hcur
  refine ⟨?_, hflag⟩
  rw [current_eq_some_iff]
  refine ⟨hm.trans hm0, ?_⟩
  rw [hheap, stopIfRunning_heap, hh0]
  rfl

/-- Witness for C10 (amended): `GetInputTensorDescs` with `isModelRunning = true` on the
session that has an inference in flight. -/
theorem accessor_running_flag_witness :
    ∃ s', (FAccessor.GetInputTensorDescs 0).call sampleDispatched true = some s' ∧
      s'.current = some (0, { ModelInstance := some sampleInstance, InputData := [1, 2, 3, 4],
                              OutputData := [], InputBindings := [], OutputBindings := [],
                              bIsRunning := false }) ∧
      s'.IsModelRunning = false :=
  match h : (FAccessor.GetInputTensorDescs 0).call sampleDispatched true with
  | some s' =>
    ⟨s', rfl, accessor_running_flag (FAccessor.GetInputTensorDescs 0) sampleDispatched s' 0
      { ModelInstance := some sampleInstance, InputData := [1, 2, 3, 4], OutputData := [],
        InputBindings := [], OutputBindings := [], bIsRunning := true }
      true (by decide) rfl h⟩
  | none => absurd h (by decide)

/-- Counterexample to C10: on a session with a valid model instance and an inference in
flight, each of the four accessors called with `isModelRunning = false` returns normally and
leaves the running flag of the current helper set. -/
theorem accessor_leaves_flag_set :
    (sampleBusy.current.map (fun c => (c.2.ModelInstance.isSome, c.2.bIsRunning)))
      = some (true, true) ∧
    ((FAccessor.GetInputTensorDescs 0).call sampleBusy false).map
      (fun s => s.current.map (fun c => c.2.bIsRunning)) = some (some true) ∧
    ((FAccessor.GetInputTensorShape 0 ⟨0, 0, 0, 0, 0, 0, 0⟩).call sampleBusy false).map
      (fun s => s.current.map (fun c => c.2.bIsRunning)) = some (some true) ∧
    ((FAccessor.GetOutputTensorDescs 0).call sampleBusy false).map
      (fun s => s.current.map (fun c => c.2.bIsRunning)) = some (some true) ∧
    ((FAccessor.GetOutputTensorShape 0).call sampleBusy false).map
      (fun s => s.current.map (fun c => c.2.bIsRunning)) = some (some true) := by
  decide

/-! ## `NormalizeImage` -/

theorem readAt_natCast {α : Type} (xs : List α) (j : Nat) : readAt xs (j : Int) = xs[j]? := by
  unfold readAt
  rw [if_pos (Int.ofNat_nonneg j), Int.toNat_ofNat]

theorem writeAt_natCast {α : Type} (xs : List α) (j : Nat) (v : α) (hj : j < xs.length) :
    writeAt xs (j : Int) v = some (xs.set j v) := by
  unfold writeAt Num
  have h : 0 ≤ (j : Int) ∧ (j : Int) < (xs.length : Int) := ⟨Int.ofNat_nonneg j, by omega⟩
  rw [if_pos h, Int.toNat_ofNat]

theorem NormalizeBody_natCast (ImageBuffer : List FLinearColor) (j : Nat) (temp : List Float32)
    (Px : FLinearColor) (hpx : ImageBuffer[j]? = some Px) (hj : j < temp.length) :
    NormalizeBody ImageBuffer (j : Int) temp
      = some (temp.set j (Lerp Px.R (Lerp Px.G Px.B Alpha033) Alpha033)) := by
  unfold NormalizeBody
  rw [readAt_natCast, hpx]
  simp only []
  rw [writeAt_natCast _ _ _ hj]

theorem normalize_loop (ImageBuffer : List FLinearColor) :
    ∀ j, j ≤ ImageBuffer.length → ∀ t0 : List Float32, ImageBuffer.length ≤ t0.length →
      ∃ t, (List.range j).foldlM
            (fun st (Idx : Nat) => NormalizeBody ImageBuffer (Idx : Int) st) t0 = some t ∧
        t.length = t0.length ∧
        (∀ (i : Nat) (Px : FLinearColor), i < j → ImageBuffer[i]? = some Px →
          t[i]? = some (Lerp Px.R (Lerp Px.G Px.B Alpha033) Alpha033)) ∧
        (∀ i : Nat, j ≤ i → t[i]? = t0[i]?) := by
  intro j
  induction j with
  | zero =>
    intro _ t0 _
    exact ⟨t0, rfl, rfl, fun i Px hi => absurd hi (Nat.not_lt_zero i), fun _ _ => rfl⟩
  | succ j ih =>
    intro hj t0 hlen
    obtain ⟨t, hfold, htlen, hlow, hhigh⟩ := ih (by omega) t0 hlen
    have hjn : j < ImageBuffer.length := by omega
    obtain ⟨Px, hpx⟩ : ∃ Px, ImageBuffer[j]? = some Px :=
      ⟨ImageBuffer[j], List.getElem?_eq_getElem hjn⟩
    have hjt : j < t.length := by omega
    refine ⟨t.set j (Lerp Px.R (Lerp Px.G Px.B Alpha033) Alpha033), ?_, ?_, ?_, ?_⟩
    · rw [List.range_succ, List.foldlM_append, hfold]
      simp only [Option.bind_eq_bind, Option.some_bind, List.foldlM_cons, List.foldlM_nil]
      rw [NormalizeBody_natCast ImageBuffer j t Px hpx hjt]
      rfl
    · rw [List.length_set, htlen]
    · intro i Qx hi hq
      by_cases hij : i = j
      · subst hij
        rw [hpx] at hq
        cases hq
        simp [List.getElem?_set, hjt]
      · rw [List.getElem?_set_ne (by omega)]
        exact hlow i Qx (by omega) hq
    · intro i hi
      rw [List.getElem?_set_ne (by omega)]
      exact hhigh i (by omega)

theorem NormalizeImage_spec (ImageBuffer : List FLinearColor) (ColorChannels : Int)
    (FlatImg : List Float32) (hc : 1 ≤ ColorChannels)
    (hsize : (ImageBuffer.length : Int) * ColorChannels ≤ INT32_MAX) :
    ∃ out, NormalizeImage ImageBuffer ColorChannels FlatImg = some out ∧
      (out.length : Int) = (ImageBuffer.length : Int) * ColorChannels ∧
      (∀ (i : Nat) (Px : FLinearColor), ImageBuffer[i]? = some Px →
        out[i]? = some (Lerp Px.R (Lerp Px.G Px.B Alpha033) Alpha033)) ∧
      (∀ i : Nat, ImageBuffer.length ≤ i → i < out.length → out[i]? = some 0) := by
  have hnn : 0 ≤ (ImageBuffer.length : Int) * ColorChannels :=
    Int.mul_nonneg (Int.ofNat_nonneg _) (by omega)
  obtain ⟨m, hm⟩ := Int.eq_ofNat_of_zero_le hnn
  have hk : toInt32 (Num ImageBuffer * ColorChannels) = (m : Int) := by
    unfold Num
    rw [toInt32_of_range _ hnn hsize, hm]
  have hnm : ImageBuffer.length ≤ m := by
    have : (ImageBuffer.length : Int) ≤ (ImageBuffer.length : Int) * ColorChannels := by
      nlinarith [Int.ofNat_nonneg ImageBuffer.length]
    omega
  obtain ⟨f2, hf2, -, -, -⟩ :=
    SetNumZeroed_spec (if (!FlatImg.isEmpty) = true then Reset FlatImg else FlatImg) m
  obtain ⟨t2, ht2, ht2len, -, ht2zero⟩ := SetNumZeroed_spec ([] : List Float32) m
  obtain ⟨out, hfold, holen, hlow, hhigh⟩ :=
    normalize_loop ImageBuffer ImageBuffer.length (le_refl _) t2 (by omega)
  refine ⟨out, ?_, ?_, ?_, ?_⟩
  · unfold NormalizeImage
    simp only []
    rw [hk, hf2]
    simp only []
    have ht : (if (!([] : List Float32).isEmpty) = true then Reset ([] : List Float32) else [])
        = ([] : List Float32) := rfl
    rw [ht, ht2]
    simp only []
    unfold ParallelFor
    rw [Num_toNat]
    exact hfold
  · rw [holen, ht2len, hm]
  · intro i Px hpx
    have hi : i < ImageBuffer.length := by
      by_contra hcon
      rw [List.getElem?_eq_none (by omega)] at hpx
      cases hpx
    exact hlow i Px hi hpx
  · intro i hi hio
    rw [hhigh i hi]
    exact ht2zero i (Nat.zero_le _) (by omega)

theorem Alpha033_nearest :
    ∃ q, Alpha033.toRat = some q ∧ |q - 33 / 100| < 2 ^ (-26 : Int) := by
  refine ⟨11072963 / 33554432, ?_, ?_⟩
  · simp only [Alpha033, Float32.toRat]
    norm_num
  · norm_num [abs_lt]

/-- C9 (amended): for a pixel buffer of `n` pixels, a channel count `c ≥ 1` with
`n * c ≤ 2147483647` and any prior content of the output array, `NormalizeImage` returns
(every array access is in range), the output has exactly `n * c` elements, every element at
an index `≥ n` is 0, and an empty pixel buffer yields an empty output. -/
theorem NormalizeImage_length_and_tail (ImageBuffer : List FLinearColor)
    (ColorChannels : Int) (FlatImg : List Float32) (hc : 1 ≤ ColorChannels)
    (hsize : (ImageBuffer.length : Int) * ColorChannels ≤ INT32_MAX) :
    ∃ out, NormalizeImage ImageBuffer ColorChannels FlatImg = some out ∧
      (out.length : Int) = (ImageBuffer.length : Int) * ColorChannels ∧
      (∀ i : Nat, ImageBuffer.length ≤ i → i < out.length → out[i]? = some 0) ∧
      (ImageBuffer = [] → out = []) := by
  obtain ⟨out, hout, hlen, -, hzero⟩ :=
    NormalizeImage_spec ImageBuffer ColorChannels FlatImg hc hsize
  refine ⟨out, hout, hlen, hzero, ?_⟩
  rintro rfl
  have h0 : out.length = 0 := by
    have : (out.length : Int) = 0 := by simpa using hlen
    omega
  exact List.length_eq_zero.1 h0

/-- Witness for C9 (amended): two pixels, three channels and a non-empty prior output. -/
theorem NormalizeImage_length_and_tail_witness :
    ∃ out, NormalizeImage [⟨1, 0, 0, 1⟩, ⟨0, 1, 0, 1⟩] 3 [1, 1] = some out ∧
      (out.length : Int) = (([⟨1, 0, 0, 1⟩, ⟨0, 1, 0, 1⟩] : List FLinearColor).length : Int) * 3 ∧
      (∀ i : Nat, ([⟨1, 0, 0, 1⟩, ⟨0, 1, 0, 1⟩] : List FLinearColor).length ≤ i →
        i < out.length → out[i]? = some 0) ∧
      (([⟨1, 0, 0, 1⟩, ⟨0, 1, 0, 1⟩] : List FLinearColor) = [] → out = []) :=
  NormalizeImage_length_and_tail [⟨1, 0, 0, 1⟩, ⟨0, 1, 0, 1⟩] 3 [1, 1] (by decide) (by decide)

/-- Counterexample to C9: for 4 pixels and the channel count 1073741825 the `int32` product
`4 * 1073741825` wraps to 4: the call returns an output of 4 elements, not of
`4 * 1073741825`. -/
theorem NormalizeImage_length_wraps :
    (1 : Int) ≤ 1073741825 ∧
    (NormalizeImage [⟨1, 0, 0, 1⟩, ⟨1, 0, 0, 1⟩, ⟨1, 0, 0, 1⟩, ⟨1, 0, 0, 1⟩] 1073741825 [1]).map
      List.length = some 4 ∧
    ((4 : Nat) : Int) ≠ 4 * 1073741825 := by
  decide

/-! ## Reload while an inference is in flight -/

theorem getElem?_lt_length {α : Type} (l : List α) (p : Nat) (a : α) (h : l[p]? = some a) :
    p < l.length := by
  by_contra hc
  rw [List.getElem?_eq_none (by omega)] at h
  cases h

theorem CreateCPUModel_installs (s : ANeuralNetwork) (L : FModelCreation)
    (hdata : L.LazyLoadedModelDataIsValid = true) (hruntime : L.RuntimeIsValid = true) :
    OnModelDataLoaded s L = (CreateCPUModel s L).1 ∧
    (CreateCPUModel s L).1.m_ModelHelper = some s.heap.length ∧
    (CreateCPUModel s L).1.tasks = s.tasks ∧
    (∀ p, p < s.heap.length → (CreateCPUModel s L).1.heap[p]? = s.heap[p]?) := by
  unfold OnModelDataLoaded CreateCPUModel
  rw [if_pos hdata, if_pos hruntime, if_pos hdata, if_pos hruntime]
  cases hM : L.Model with
  | none =>
    refine ⟨rfl, rfl, rfl, ?_⟩
    intro p hp
    exact List.getElem?_append_left hp
  | some Instance =>
    cases hI : Instance with
    | none =>
      refine ⟨rfl, by simp, by simp, ?_⟩
      intro p hp
      simp only [Option.isSome_none, Bool.false_eq_true, if_false]
      rw [modify_heap_other _ _ _ _ (by omega)]
      exact List.getElem?_append_left hp
    | some I =>
      refine ⟨rfl, by simp, by simp, ?_⟩
      intro p hp
      simp only [Option.isSome_some, if_true]
      rw [modify_heap_other _ _ _ _ (by omega), modify_heap_other _ _ _ _ (by omega)]
      exact List.getElem?_append_left hp

theorem runTask_compute_frame (RunSync : FRunSync) (s : ANeuralNetwork) (i p : Nat)
    (R : FNNEAsyncInferenceDelegate) (H : FModelHelper)
    (ht : s.tasks[i]? = some (FAsyncTask.AnyNormalThreadNormalTask p R))
    (hd : s.deref p = some H) (hi : H.ModelInstance.isSome = true) :
    ∃ s2, runTask RunSync s i = some s2 ∧
      s2.tasks = s.tasks.set i (FAsyncTask.GameThread p R (RunSync H).2) ∧
      s2.deref p = some { H with OutputData := (RunSync H).2 } ∧
      (∀ r, r ≠ p → s2.heap[r]? = s.heap[r]?) ∧
      s2.m_ModelHelper = s.m_ModelHelper ∧ s2.IsModelRunning = s.IsModelRunning := by
  refine ⟨_, runTask_background RunSync s i p R H ht hd hi, rfl, ?_, ?_, ?_, ?_⟩
  · have h := modify_heap_same s p (fun H1 => { H1 with OutputData := (RunSync H).2 })
    rw [show s.heap[p]? = some H from hd] at h
    exact h
  · intro r hr
    exact modify_heap_other s p r _ (Ne.symm hr)
  · exact modify_m_ModelHelper s p _
  · exact modify_IsModelRunning s p _

theorem runTask_delivery_frame (RunSync : FRunSync) (s : ANeuralNetwork) (i p : Nat)
    (R : FNNEAsyncInferenceDelegate) (Captured : List ℚ) (H : FModelHelper)
    (ht : s.tasks[i]? = some (FAsyncTask.GameThread p R Captured))
    (hd : s.deref p = some H) :
    ∃ s3, runTask RunSync s i = some s3 ∧
      s3.tasks = s.tasks.eraseIdx i ∧
      s3.deref p = some { H with bIsRunning := false } ∧
      (∀ r, r ≠ p → s3.heap[r]? = s.heap[r]?) ∧
      s3.m_ModelHelper = s.m_ModelHelper ∧ s3.IsModelRunning = s.IsModelRunning := by
  refine ⟨_, runTask_delivery RunSync s i p R Captured ht, rfl, ?_, ?_, ?_, ?_⟩
  · have h := modify_heap_same { s with trace := s.trace ++ ExecuteIfBound R Captured } p
      (fun H1 => { H1 with bIsRunning := false })
    rw [show s.heap[p]? = some H from hd] at h
    exact h
  · intro r hr
    exact modify_heap_other { s with trace := s.trace ++ ExecuteIfBound R Captured } p r _
      (Ne.symm hr)
  · exact modify_m_ModelHelper { s with trace := s.trace ++ ExecuteIfBound R Captured } p _
  · exact modify_IsModelRunning { s with trace := s.trace ++ ExecuteIfBound R Captured } p _

theorem current_congr (s s' : ANeuralNetwork) (q : Nat) (hm : s.m_ModelHelper = some q)
    (hm' : s'.m_ModelHelper = some q) (hh : s'.heap[q]? = s.heap[q]?) :
    s'.current = s.current := by
  unfold ANeuralNetwork.current ANeuralNetwork.deref
  rw [hm, hm']
  simp only []
  rw [hh]

theorem runToDelivery_frame (RunSync : FRunSync) (s : ANeuralNetwork) (i : Nat)
    (t : FAsyncTask) (H : FModelHelper) (ht : s.tasks[i]? = some t)
    (hd : s.deref t.ModelHelperPtr = some H) (hi : H.ModelInstance.isSome = true) :
    ∃ s3, runToDelivery RunSync s i = some s3 ∧
      s3.deref t.ModelHelperPtr
        = some { H with OutputData := outputAfter RunSync H t, bIsRunning := false } ∧
      (∀ r, r ≠ t.ModelHelperPtr → s3.heap[r]? = s.heap[r]?) ∧
      s3.m_ModelHelper = s.m_ModelHelper ∧ s3.IsModelRunning = s.IsModelRunning := by
  cases t with
  | AnyNormalThreadNormalTask p R =>
    obtain ⟨s2, h2, ht2, hd2, hf2, hm2, hr2⟩ := runTask_compute_frame RunSync s i p R H ht hd hi
    have hilt : i < s.tasks.length := getElem?_lt_length _ _ _ ht
    have ht2' : s2.tasks[i]? = some (FAsyncTask.GameThread p R (RunSync H).2) := by
      rw [ht2]
      simp [List.getElem?_set, hilt]
    obtain ⟨s3, h3, -, hd3, hf3, hm3, hr3⟩ :=
      runTask_delivery_frame RunSync s2 i p R (RunSync H).2 _ ht2' hd2
    refine ⟨s3, ?_, hd3, ?_, hm3.trans hm2, hr3.trans hr2⟩
    · unfold runToDelivery
      rw [ht]
      simp only []
      rw [h2]
      exact h3
    · intro r hr
      exact (hf3 r hr).trans (hf2 r hr)
  | GameThread p R Captured =>
    obtain ⟨s3, h3, -, hd3, hf3, hm3, hr3⟩ :=
      runTask_delivery_frame RunSync s i p R Captured H ht hd
    refine ⟨s3, ?_, hd3, hf3, hm3, hr3⟩
    unfold runToDelivery
    rw [ht]
    exact h3

/-- C11: let a unit of work that captured the helper at `t.ModelHelperPtr` be queued, before
or after its compute step, and let the model be reloaded by `CreateCPUModel` (or
`OnModelDataLoaded`, which yields the same state) with valid model data and runtime, so that
a fresh helper is installed. The reload leaves the captured helper record, with its buffers
and bindings, and the queue unchanged, and the new current helper is a different record.
Running the unit of work up to its delivery then changes no helper but the captured one,
whose input buffer and bindings stay as they were, whose output buffer is what `RunSync`
computed from the captured helper and whose running flag is cleared; the session's current
helper, its pointer and `IsModelRunning` are as the reload left them. -/
theorem reload_in_flight_keeps_helpers_apart (RunSync : FRunSync) (s : ANeuralNetwork)
    (L : FModelCreation) (i : Nat) (t : FAsyncTask) (H : FModelHelper)
    (hdata : L.LazyLoadedModelDataIsValid = true) (hruntime : L.RuntimeIsValid = true)
    (ht : s.tasks[i]? = some t) (hd : s.deref t.ModelHelperPtr = some H)
    (hi : H.ModelInstance.isSome = true) :
    OnModelDataLoaded s L = (CreateCPUModel s L).1 ∧
    (CreateCPUModel s L).1.deref t.ModelHelperPtr = some H ∧
    (CreateCPUModel s L).1.tasks = s.tasks ∧
    (CreateCPUModel s L).1.m_ModelHelper = some s.heap.length ∧
    s.heap.length ≠ t.ModelHelperPtr ∧
    ∃ s3, runToDelivery RunSync (CreateCPUModel s L).1 i = some s3 ∧
      s3.deref t.ModelHelperPtr
        = some { H with OutputData := outputAfter RunSync H t, bIsRunning := false } ∧
      (∀ r, r ≠ t.ModelHelperPtr → s3.deref r = (CreateCPUModel s L).1.deref r) ∧
      s3.current = (CreateCPUModel s L).1.current ∧
      s3.m_ModelHelper = (CreateCPUModel s L).1.m_ModelHelper ∧
      s3.IsModelRunning = (CreateCPUModel s L).1.IsModelRunning := by
  obtain ⟨h1, h2, h3, h4⟩ := CreateCPUModel_installs s L hdata hruntime
  have hplt : t.ModelHelperPtr < s.heap.length := getElem?_lt_length _ _ _ hd
  have hd1 : (CreateCPUModel s L).1.deref t.ModelHelperPtr = some H :=
    (h4 _ hplt).trans hd
  have ht1 : (CreateCPUModel s L).1.tasks[i]? = some t := by rw [h3]; exact ht
  obtain ⟨s3, hrun, hd3, hf3, hm3, hr3⟩ :=
    runToDelivery_frame RunSync (CreateCPUModel s L).1 i t H ht1 hd1 hi
  refine ⟨h1, hd1, h3, h2, by omega, s3, hrun, hd3, hf3, ?_, hm3, hr3⟩
  exact current_congr _ _ s.heap.length h2 (hm3.trans h2) (hf3 _ (by omega))

/-- Witness for C11: the sample session reloads while its inference is queued for the
compute step. -/
theorem reload_in_flight_keeps_helpers_apart_witness :
    OnModelDataLoaded sampleDispatched sampleCreation
      = (CreateCPUModel sampleDispatched sampleCreation).1 ∧
    (CreateCPUModel sampleDispatched sampleCreation).1.deref 0
      = some { ModelInstance := some sampleInstance, InputData := [1, 2, 3, 4],
               OutputData := [], InputBindings := [], OutputBindings := [],
               bIsRunning := true } ∧
    (CreateCPUModel sampleDispatched sampleCreation).1.tasks = sampleDispatched.tasks ∧
    (CreateCPUModel sampleDispatched sampleCreation).1.m_ModelHelper = some 1 ∧
    (1 : Nat) ≠ 0 ∧
    ∃ s3, runToDelivery sampleRunSync (CreateCPUModel sampleDispatched sampleCreation).1 0
        = some s3 ∧
      s3.deref 0
        = some { ModelInstance := some sampleInstance, InputData := [1, 2, 3, 4],
                 OutputData := [5, 6, 7], InputBindings := [], OutputBindings := [],
                 bIsRunning := false } ∧
      (∀ r, r ≠ 0 → s3.deref r = (CreateCPUModel sampleDispatched sampleCreation).1.deref r) ∧
      s3.current = (CreateCPUModel sampleDispatched sampleCreation).1.current ∧
      s3.m_ModelHelper = (CreateCPUModel sampleDispatched sampleCreation).1.m_ModelHelper ∧
      s3.IsModelRunning = (CreateCPUModel sampleDispatched sampleCreation).1.IsModelRunning :=
  reload_in_flight_keeps_helpers_apart sampleRunSync sampleDispatched sampleCreation 0
    (FAsyncTask.AnyNormalThreadNormalTask 0 (some 7))
    { ModelInstance := some sampleInstance, InputData := [1, 2, 3, 4], OutputData := [],
      InputBindings := [], OutputBindings := [], bIsRunning := true }
    rfl rfl (by decide) (by decide) rfl

/-! ## The two running flags -/

theorem RunAsyncInference_IsModelRunning (s : ANeuralNetwork) (p : Nat) (H : FModelHelper)
    (InBSuccess OutBSuccess : Bool) (InputData : List ℚ) (Result : FNNEAsyncInferenceDelegate)
    (hcur : s.current = some (p, H)) (hidle : H.bIsRunning = false) :
    (RunAsyncInference s InBSuccess OutBSuccess InputData Result).IsModelRunning = false := by
  simp [RunAsyncInference, hcur, hidle]

/-- C12 (evaluation at the failing input): after `RunAsyncInference` has dispatched an
inference on the freshly loaded session and returned, the inference is in flight and the
current helper's `bIsRunning` is `true`, but the session's `IsModelRunning` is `false`. -/
theorem IsModelRunning_false_while_in_flight :
    sampleLoaded.current.map (fun c => c.2.bIsRunning) = some false ∧
    inFlight (RunAsyncInference sampleLoaded true true [1, 2, 3, 4] (some 7)) = 1 ∧
    (RunAsyncInference sampleLoaded true true [1, 2, 3, 4] (some 7)).current.map
      (fun c => c.2.bIsRunning) = some true ∧
    (RunAsyncInference sampleLoaded true true [1, 2, 3, 4] (some 7)).IsModelRunning
      = false := by
  decide

/-! ## `SetInputTensorShapes` leaves the stored shapes, the buffers and the bindings -/

@[simp] theorem stopIfRunning_OutputTensorDescs (s : ANeuralNetwork) (p : Nat) (b : Bool) :
    (s.stopIfRunning p b).OutputTensorDescs = s.OutputTensorDescs := by
  cases b <;> simp [ANeuralNetwork.stopIfRunning, ANeuralNetwork.modify]
  split <;> rfl

theorem stopIfRunning_heap_other (s : ANeuralNetwork) (p r : Nat) (b : Bool) (hr : r ≠ p) :
    (s.stopIfRunning p b).heap[r]? = s.heap[r]? := by
  cases b with
  | false => rfl
  | true =>
    simp only [ANeuralNetwork.stopIfRunning, if_true]
    exact modify_heap_other s p r _ (Ne.symm hr)

theorem SetInputTensorShapes_eq (s : ANeuralNetwork) (p : Nat) (H : FModelHelper)
    (I : IModelInstanceCPU) (b : Bool) (Rank Dimension Frame ColorChannels Height Width : Int)
    (hcur : s.current = some (p, H)) (hI : H.ModelInstance = some I) :
    ∃ s', SetInputTensorShapes s b Rank Dimension Frame ColorChannels Height Width = some s' ∧
      s'.current = some (p, { H with
        ModelInstance := some (I.SetInputTensorShapes
          (appliedShapes s.InputTensorShapes Rank Dimension Frame ColorChannels Height Width))
        bIsRunning := (H.bIsRunning && !b) }) ∧
      s'.IsModelRunning = (s.IsModelRunning && !b) ∧
      s'.InputTensorShapes = s.InputTensorShapes ∧
      s'.OutputTensorShapes = s.OutputTensorShapes ∧
      s'.InputTensorDescs = s.InputTensorDescs ∧
      s'.OutputTensorDescs = s.OutputTensorDescs ∧
      s'.tasks = s.tasks ∧ s'.trace = s.trace ∧
      (∀ r, r ≠ p → s'.deref r = s.deref r) := by
  obtain ⟨hm, hh⟩ := (current_eq_some_iff s p H).1 hcur
  refine ⟨(s.stopIfRunning p b).modify p (fun H1 =>
      { H1 with ModelInstance := H1.ModelInstance.map (fun J => J.SetInputTensorShapes
          (appliedShapes (s.stopIfRunning p b).InputTensorShapes Rank Dimension Frame
            ColorChannels Height Width)) }), ?_, ?_, ?_, ?_, ?_, ?_, ?_, ?_, ?_, ?_⟩
  · unfold SetInputTensorShapes
    rw [hcur]
    simp only []
    rw [hI]
  · rw [current_eq_some_iff]
    refine ⟨by simpa using hm, ?_⟩
    rw [modify_heap_same, stopIfRunning_heap, hh]
    simp only [Option.map_some', hI, stopIfRunning_InputTensorShapes]
  · simp
  · simp
  · simp
  · simp [(modify_frame _ _ _).2.2.2.2.1]
  · simp [(modify_frame _ _ _).2.2.2.2.2.2.1]
  · simp
  · simp
  · intro r hr
    show (ANeuralNetwork.modify _ p _).heap[r]? = s.heap[r]?
    rw [modify_heap_other _ _ _ _ (Ne.symm hr), stopIfRunning_heap_other _ _ _ _ hr]

/-- C13: on a session whose current helper holds a model instance, `SetInputTensorShapes`
returns for every argument tuple, and the only thing it changes besides the shape list
applied to the model instance is, when `isModelRunning` is `true`, the two running flags: the
current helper keeps its input and output buffers and its bindings, and the session keeps its
stored input shape list, its descriptors, its output shapes, its queue and every other helper.
Consequently a following `CreateInputTensorBinding` resizes the input buffer to the volume of
the stored shape `InputTensorShapes[0]` (as `SetNumZeroed` does for that `int32` count) and
sets the one binding to that buffer's byte size, whatever `Rank`, `Dimension`, `Frame`,
`ColorChannels`, `Height` and `Width` were applied. -/
theorem SetInputTensorShapes_changes_only_applied_shape (s : ANeuralNetwork) (p : Nat)
    (H : FModelHelper) (I : IModelInstanceCPU) (isModelRunning : Bool)
    (Rank Dimension Frame ColorChannels Height Width : Int)
    (hcur : s.current = some (p, H)) (hI : H.ModelInstance = some I) :
    ∃ s', SetInputTensorShapes s isModelRunning Rank Dimension Frame ColorChannels Height Width
        = some s' ∧
      s'.current = some (p, { H with
        ModelInstance := some (I.SetInputTensorShapes
          (appliedShapes s.InputTensorShapes Rank Dimension Frame ColorChannels Height Width))
        bIsRunning := (H.bIsRunning && !isModelRunning) }) ∧
      s'.IsModelRunning = (s.IsModelRunning && !isModelRunning) ∧
      s'.InputTensorShapes = s.InputTensorShapes ∧
      s'.OutputTensorShapes = s.OutputTensorShapes ∧
      s'.InputTensorDescs = s.InputTensorDescs ∧
      s'.OutputTensorDescs = s.OutputTensorDescs ∧
      s'.tasks = s.tasks ∧ s'.trace = s.trace ∧
      (∀ r, r ≠ p → s'.deref r = s.deref r) ∧
      ∀ (b2 : Bool) (Shape : FTensorShape) (rest : List FTensorShape) (ys : List ℚ),
        s.InputTensorShapes = Shape :: rest →
        SetNumZeroed H.InputData (toInt32 (Shape.Volume : Int)) = some ys →
        ∃ s2 H2, CreateInputTensorBinding s' b2 = some (s2, true) ∧
          s2.current = some (p, H2) ∧ H2.InputData = ys ∧
          H2.InputBindings = [⟨some (BufferRef.InputData p), ys.length * 4⟩] := by
  obtain ⟨s', h1, h2, h3, h4, h5, h6, h7, h8, h9, h10⟩ :=
    SetInputTensorShapes_eq s p H I isModelRunning Rank Dimension Frame ColorChannels Height
      Width hcur hI
  refine ⟨s', h1, h2, h3, h4, h5, h6, h7, h8, h9, h10, ?_⟩
  intro b2 Shape rest ys hshape hys
  obtain ⟨hb1, hb2⟩ :=
    CreateInputTensorBinding_eq s' p _ b2 Shape rest ys h2 (h4.trans hshape) hys
  exact ⟨_, _, hb1, hb2, rfl, rfl⟩

/-- Witness for C13: the sample session with stored input shape `[1,1,2,2]`, on which the
shape `[1,3,8,8]` is applied. -/
theorem SetInputTensorShapes_changes_only_applied_shape_witness :
    ∃ s', SetInputTensorShapes sampleResolved true 4 1 0 3 8 8 = some s' ∧
      s'.current = some (0, { ModelInstance := some (sampleInstance.SetInputTensorShapes
                                (appliedShapes sampleResolved.InputTensorShapes 4 1 0 3 8 8)),
                              InputData := [], OutputData := [], InputBindings := [],
                              OutputBindings := [], bIsRunning := (false && !true) }) ∧
      s'.IsModelRunning = (sampleResolved.IsModelRunning && !true) ∧
      s'.InputTensorShapes = sampleResolved.InputTensorShapes ∧
      s'.OutputTensorShapes = sampleResolved.OutputTensorShapes ∧
      s'.InputTensorDescs = sampleResolved.InputTensorDescs ∧
      s'.OutputTensorDescs = sampleResolved.OutputTensorDescs ∧
      s'.tasks = sampleResolved.tasks ∧ s'.trace = sampleResolved.trace ∧
      (∀ r, r ≠ 0 → s'.deref r = sampleResolved.deref r) ∧
      ∀ (b2 : Bool) (Shape : FTensorShape) (rest : List FTensorShape) (ys : List ℚ),
        sampleResolved.InputTensorShapes = Shape :: rest →
        SetNumZeroed ([] : List ℚ) (toInt32 (Shape.Volume : Int)) = some ys →
        ∃ s2 H2, CreateInputTensorBinding s' b2 = some (s2, true) ∧
          s2.current = some (0, H2) ∧ H2.InputData = ys ∧
          H2.InputBindings = [⟨some (BufferRef.InputData 0), ys.length * 4⟩] :=
  SetInputTensorShapes_changes_only_applied_shape sampleResolved 0
    { ModelInstance := some sampleInstance, InputData := [], OutputData := [],
      InputBindings := [], OutputBindings := [], bIsRunning := false }
    sampleInstance true 4 1 0 3 8 8 (by decide) rfl

end NeuralNetwork
